import Mathlib

/-!
Verification development for the flocker control-plane repository.

Embedded here, translated from the repository's sources:
  * `src/flocker/node/_config.py` — configuration parsing and validation
    (`Configuration` and its methods, `model_from_configuration`), over an
    explicit model of Python 2 values (`PyValue`).
  * `src/flocker/control/_protocol.py` — the AMP wire arguments and the
    control-side / agent-side command locators.

The domain model (`flocker/node/_model.py`), the deployment codec
(`flocker/control/_persistence.py`), the cluster-state aggregator and the
Twisted AMP transport are collaborators whose code is not under `src/`;
definitions for them are modelled from the spec and say so in their doc
comments.

Modelling conventions (noted once here):
  * Python dictionaries are association lists with unique string keys, in
    insertion order; YAML mappings with non-string keys are out of scope.
  * Python 2 `str`/`unicode` are both modelled by `String` (ASCII assumed).
  * `frozenset` values are modelled by lists in construction order.
  * Floats are not modelled (the configs in scope carry none).
-/

/-- A Python 2 value as it appears in a parsed YAML configuration. -/
inductive PyValue where
  | pnone
  | pbool (b : Bool)
  | pint (n : Int)
  | pstr (s : String)
  | plist (xs : List PyValue)
  | pdict (xs : List (String × PyValue))

/-- A Python dictionary with string keys: an association list in insertion
order with unique keys. -/
abbrev PyDict := List (String × PyValue)

/-- Python truthiness (`if value:`): `None`, `False`, `0`, `""` and empty
containers are falsy. -/
def truthy : PyValue → Bool
  | .pnone => false
  | .pbool b => b
  | .pint n => n != 0
  | .pstr s => s ≠ ""
  | .plist xs => !xs.isEmpty
  | .pdict xs => !xs.isEmpty

/-- `type(value).__name__` for the modelled values. -/
def pyTypeName : PyValue → String
  | .pnone => "NoneType"
  | .pbool _ => "bool"
  | .pint _ => "int"
  | .pstr _ => "str"
  | .plist _ => "list"
  | .pdict _ => "dict"

mutual
/-- Python 2 `repr` of a modelled value (used by `str` on containers). -/
def pyRepr : PyValue → String
  | .pnone => "None"
  | .pbool b => if b then "True" else "False"
  | .pint n => toString n
  | .pstr s => "'" ++ s ++ "'"
  | .plist xs => "[" ++ pyReprList xs ++ "]"
  | .pdict xs => "\x7b" ++ pyReprDict xs ++ "\x7d"
def pyReprList : List PyValue → String
  | [] => ""
  | [x] => pyRepr x
  | x :: y :: rest => pyRepr x ++ ", " ++ pyReprList (y :: rest)
def pyReprDict : List (String × PyValue) → String
  | [] => ""
  | [(k, v)] => "'" ++ k ++ "': " ++ pyRepr v
  | (k, v) :: y :: rest => "'" ++ k ++ "': " ++ pyRepr v ++ ", " ++ pyReprDict (y :: rest)
end

/-- Python 2 `str(value)`: the string itself for strings, `repr` otherwise. -/
def pyStrOf : PyValue → String
  | .pstr s => s
  | v => pyRepr v

/-- Dictionary lookup (`d[k]` / `d.get(k)` on a string-keyed dict). -/
def lookupD : PyDict → String → Option PyValue
  | [], _ => Option.none
  | (k, v) :: rest, key => if k = key then some v else lookupD rest key

/-- `k in d`. -/
def hasKey (d : PyDict) (k : String) : Bool := (lookupD d k).isSome

/-- `d[k]` where the caller has already checked `k in d` (junk default). -/
def getD (d : PyDict) (k : String) : PyValue := (lookupD d k).getD .pnone

/-- `d.pop(k)`: the removed value (if any) and the remaining dictionary. -/
def popD : PyDict → String → Option PyValue × PyDict
  | [], _ => (Option.none, [])
  | (k, v) :: rest, key =>
    if k = key then (some v, rest)
    else
      let r := popD rest key
      (r.1, (k, v) :: r.2)

/-- `d.pop(k, default)`. -/
def popDdef (d : PyDict) (k : String) (dflt : PyValue) : PyValue × PyDict :=
  match popD d k with
  | (some v, d2) => (v, d2)
  | (Option.none, d2) => (dflt, d2)

/-- `d[k] = v` where `k` is already a key of `d` (replace in place). -/
def setD : PyDict → String → PyValue → PyDict
  | [], _, _ => []
  | (k, v) :: rest, key, nv =>
    if k = key then (k, nv) :: rest else (k, v) :: setD rest key nv

/-- Lexicographic comparison of character lists (Python 2 `<` on ASCII
strings compares code points). -/
def ltChars : List Char → List Char → Bool
  | [], [] => false
  | [], _ :: _ => true
  | _ :: _, [] => false
  | a :: as, b :: bs => if a < b then true else if b < a then false else ltChars as bs

/-- Python `<` on strings. -/
def strLtB (a b : String) : Bool := ltChars a.data b.data

/-- Insert into an ascending list (helper for `sortStrings`). -/
def insertSorted (s : String) : List String → List String
  | [] => [s]
  | t :: rest => if strLtB t s then t :: insertSorted s rest else s :: t :: rest

/-- Python `sorted` on a list of strings. -/
def sortStrings : List String → List String
  | [] => []
  | s :: rest => insertSorted s (sortStrings rest)

/-- `', '.join(items)`. -/
def joinComma : List String → String
  | [] => ""
  | [s] => s
  | s :: t :: rest => s ++ ", " ++ joinComma (t :: rest)

/-- The keys of a dictionary, in order. -/
def keysOf (d : PyDict) : List String := d.map (·.1)

/-- `', '.join(sorted(d.keys()))`. -/
def joinSortedKeys (d : PyDict) : String := joinComma (sortStrings (keysOf d))

/-- Split a character list at every `':'`, keeping empty pieces
(Python `s.split(':')`). -/
def splitColonChars : List Char → List (List Char)
  | [] => [[]]
  | c :: rest =>
    let r := splitColonChars rest
    if c == ':' then [] :: r
    else
      match r with
      | [] => [[c]]
      | piece :: more => (c :: piece) :: more

/-- Python `s.split(':')`. -/
def splitColonStr (s : String) : List String :=
  (splitColonChars s.data).map (fun cs => ⟨cs⟩)

/-- Split at the last `':'` if there is one (Python `s.rsplit(':', 1)`). -/
def breakLastColon : List Char → Option (List Char × List Char)
  | [] => Option.none
  | c :: rest =>
    match breakLastColon rest with
    | some (b, a) => some (c :: b, a)
    | Option.none => if c == ':' then some ([], rest) else Option.none

/-- Python `int(s)` on a decimal literal: optional surrounding spaces,
optional sign, at least one digit. -/
def digitsToNat? : List Char → Option Nat
  | [] => Option.none
  | cs => go cs 0
where
  go : List Char → Nat → Option Nat
    | [], acc => some acc
    | c :: rest, acc =>
      if c.isDigit then go rest (acc * 10 + (c.toNat - 48)) else Option.none

/-- Python `int(s)` (decimal). -/
def pyInt? (s : String) : Option Int :=
  let cs := (s.data.dropWhile (· == ' ')).reverse.dropWhile (· == ' ') |>.reverse
  match cs with
  | '-' :: rest => (digitsToNat? rest).map (fun n => -(n : Int))
  | '+' :: rest => (digitsToNat? rest).map (fun n => (n : Int))
  | _ => (digitsToNat? cs).map (fun n => (n : Int))

/-! ## Errors raised by the configuration code (`src/flocker/node/_config.py`)

`configurationError` is the repository's `ConfigurationError` with its
rendered message.  The other constructors model built-in Python exceptions
that the parsing code can let escape (they are not `ConfigurationError`). -/

/-- An exception raised while parsing configuration: the repository's
`ConfigurationError`, or a Python built-in that escapes it. -/
inductive PyErr where
  | configurationError (msg : String)
  | stopIteration
  | indexError
  | keyError (k : String)
  | attributeError (attr : String)
  | typeError (msg : String)
  deriving DecidableEq

/-- Whether an error is the repository's `ConfigurationError`. -/
def PyErr.isConfigurationError : PyErr → Bool
  | .configurationError _ => true
  | _ => false

/-- The `"Application '<name>' has a config error. <detail>"` message shape
used throughout `_config.py`. -/
def appErr (application_name detail : String) : String :=
  "Application '" ++ application_name ++ "' has a config error. " ++ detail

/-! ## Records built by the configuration parser

These model the `_model.py` classes exactly as `_config.py` instantiates
them.  Fields that Python never type-checks before storing stay `PyValue`. -/

/-- Modelled from the spec: `DockerImage` from `flocker/node/_model.py`
(not under `src/`): a parsed image reference, repository plus tag (§3). -/
structure DockerImage where
  repository : String
  tag : String
  deriving DecidableEq

/-- Modelled from the spec: `Port` as instantiated by `_config.py`; the
flocker-format parser stores the configured values without an integer
check, so the fields stay `PyValue`. -/
structure CPort where
  internal_port : PyValue
  external_port : PyValue

/-- Modelled from the spec: `Link` as instantiated by `_config.py`
(local port, remote port, alias). -/
structure CLink where
  local_port : PyValue
  remote_port : PyValue
  aliasName : String

/-- Modelled from the spec: `AttachedVolume` as instantiated by
`_config.py` (name plus mountpoint; the mountpoint may be `None` in
lenient mode, so it stays `PyValue`). -/
structure CVolume where
  name : String
  mountpoint : PyValue

/-- What `Configuration._parse_environment_config` returns: `None` or a
falsy configured value passed through unchanged (`raw`), or the
`frozenset` of key/value pairs (`fset`). -/
inductive EnvValue where
  | raw (v : PyValue)
  | fset (xs : List (String × String))

/-- Modelled from the spec: `Application` from `flocker/node/_model.py`
(not under `src/`), with the field types `_config.py` actually stores. -/
structure CApplication where
  name : String
  image : DockerImage
  volume : Option CVolume
  ports : List CPort
  links : List CLink
  environment : EnvValue

/-- Modelled from the spec: `Node` from `flocker/node/_model.py`
(not under `src/`): a hostname plus its applications (§3). -/
structure CNode where
  hostname : String
  applications : List CApplication

/-- Modelled from the spec: `Deployment` from `flocker/node/_model.py`
(not under `src/`): the set of nodes (§3). -/
structure CDeployment where
  nodes : List CNode

/-- The `dict` mapping application names to `Application` instances that
`_applications_from_configuration` returns. -/
abbrev AppMap := List (String × CApplication)

/-- Lookup in an `AppMap` (`all_applications.get(name)`). -/
def lookupApp : AppMap → String → Option CApplication
  | [], _ => Option.none
  | (k, v) :: rest, key => if k = key then some v else lookupApp rest key

/-- Modelled from the spec: `DockerImage.from_string` from
`flocker/node/_model.py` (not under `src/`): parses `"repository[:tag]"`
at the last colon, tag defaulting to `"latest"`; an empty repository or
tag is a `ValueError` (returned as the error message). -/
def dockerImageFromString : PyValue → Except String DockerImage
  | .pstr s =>
    match breakLastColon s.data with
    | Option.none =>
      if s = "" then
        .error ("Docker image names must have format 'repository[:tag]'. Found '" ++ s ++ "'.")
      else .ok ⟨s, "latest"⟩
    | some (before, after) =>
      if before.isEmpty || after.isEmpty then
        .error ("Docker image names must have format 'repository[:tag]'. Found '" ++ s ++ "'.")
      else .ok ⟨⟨before⟩, ⟨after⟩⟩
  | v => .error ("Docker image names must be strings; got type '" ++ pyTypeName v ++ "'.")

/-- `isinstance(v, (int,))` — Python 2 `bool` is a subtype of `int`. -/
def isInstInt : PyValue → Bool
  | .pint _ => true
  | .pbool _ => true
  | _ => false

/-- `isinstance(v, types.StringTypes)`. -/
def isInstStr : PyValue → Bool
  | .pstr _ => true
  | _ => false

/-- `Configuration._parse_environment_config` from
`src/flocker/node/_config.py` lines 65–102: pops `environment` from the
application's config; a falsy value (absent → `None`, or e.g. `{}`) is
returned as is, a truthy dict of string values becomes a `frozenset` of
items, anything else is a `ConfigurationError`.  Returns the result and
the mutated config. -/
def parse_environment_config (application_name : String) (config : PyDict) :
    (Except PyErr EnvValue) × PyDict :=
  let p := popDdef config "environment" .pnone
  let environment := p.1
  let c := p.2
  if truthy environment = false then (.ok (.raw environment), c)
  else
    match environment with
    | .pdict ed => (env_items ed, c)
    | v =>
      (.error (.configurationError (appErr application_name
        ("'environment' must be a dictionary of key/value pairs; got type '"
          ++ pyTypeName v ++ "'."))), c)
where
  /-- The per-item string checks and the final `frozenset(environment.items())`. -/
  env_items : List (String × PyValue) → Except PyErr EnvValue
    | [] => .ok (.fset [])
    | (k, .pstr v) :: rest => do
      let r ← env_items rest
      match r with
      | .fset xs => .ok (.fset ((k, v) :: xs))
      | other => .ok other
    | (k, v) :: _ =>
      .error (.configurationError (appErr application_name
        ("Environment variable '" ++ k ++ "' must be a string; got type '"
          ++ pyTypeName v ++ "'.")))

/-- `Configuration._parse_link_configuration` from
`src/flocker/node/_config.py` lines 104–165, applied to the popped
`links` value.  `_check_type` failures raise their `ConfigurationError`
directly; `ValueError`s are wrapped as
`"Invalid links specification. <message>"`. -/
def parse_link_configuration (application_name : String) (config : PyValue) :
    Except PyErr (List CLink) :=
  match config with
  | .plist links => parse_links_list links
  | v =>
    .error (.configurationError (appErr application_name
      ("'links' must be a list of dictionaries; got type '" ++ pyTypeName v ++ "'.")))
where
  parse_links_list : List PyValue → Except PyErr (List CLink)
    | [] => .ok []
    | .pdict ld :: rest =>
      (match popD ld "local_port" with
      | (Option.none, _) =>
        .error (.configurationError (appErr application_name
          "Invalid links specification. Missing local port."))
      | (some lv, ld1) =>
        if isInstInt lv = false then
          .error (.configurationError (appErr application_name
            ("Link's local port must be an int; got type '" ++ pyTypeName lv ++ "'.")))
        else match popD ld1 "remote_port" with
        | (Option.none, _) =>
          .error (.configurationError (appErr application_name
            "Invalid links specification. Missing remote port."))
        | (some rv, ld2) =>
          if isInstInt rv = false then
            .error (.configurationError (appErr application_name
              ("Link's remote port must be an int; got type '" ++ pyTypeName rv ++ "'.")))
          else match popD ld2 "alias" with
          | (Option.none, _) =>
            .error (.configurationError (appErr application_name
              "Invalid links specification. Missing alias."))
          | (some av, ld3) =>
            if isInstStr av = false then
              .error (.configurationError (appErr application_name
                ("Link alias must be a string; got type '" ++ pyTypeName av ++ "'.")))
            else if ld3.isEmpty = false then
              .error (.configurationError (appErr application_name
                ("Invalid links specification. Unrecognised keys: "
                  ++ joinSortedKeys ld3 ++ ".")))
            else do
              let ls ← parse_links_list rest
              .ok (⟨lv, rv, pyStrOf av⟩ :: ls))
    | v :: _ =>
      .error (.configurationError (appErr application_name
        ("Link must be a dictionary; got type '" ++ pyTypeName v ++ "'.")))

/-- The `ports` loop of `_applications_from_flocker_configuration`
(`src/flocker/node/_config.py` lines 432–455), applied to the popped
`ports` value.  Iterating a non-list and `.pop` on a non-dict raise
Python built-ins, not `ConfigurationError` (non-list iterables such as
strings are out of the modelled scope). -/
def parse_flocker_ports (application_name : String) : PyValue → Except PyErr (List CPort)
  | .plist ports => ports_list ports
  | _ => .error (.typeError "ports value is not a list")
where
  ports_list : List PyValue → Except PyErr (List CPort)
    | [] => .ok []
    | .pdict pd :: rest =>
      (match popD pd "internal" with
      | (Option.none, _) =>
        .error (.configurationError (appErr application_name
          "Invalid ports specification. Missing internal port."))
      | (some iv, pd1) =>
        match popD pd1 "external" with
        | (Option.none, _) =>
          .error (.configurationError (appErr application_name
            "Invalid ports specification. Missing external port."))
        | (some ev, pd2) =>
          if pd2.isEmpty = false then
            .error (.configurationError (appErr application_name
              ("Invalid ports specification. Unrecognised keys: "
                ++ joinSortedKeys pd2 ++ ".")))
          else do
            let ps ← ports_list rest
            .ok (⟨iv, ev⟩ :: ps))
    | .plist _ :: _ => .error (.typeError "pop expected a key")
    | _ :: _ => .error (.attributeError "pop")

/-- The `volume` stanza of `_applications_from_flocker_configuration`
(`src/flocker/node/_config.py` lines 460–509): pops `volume` when
present and validates the mountpoint; `ValueError`s become
`"Invalid volume specification. <message>"`.  Returns the volume (if
any) and the mutated config. -/
def parse_flocker_volume (lenient : Bool) (application_name : String) (config : PyDict) :
    (Except PyErr (Option CVolume)) × PyDict :=
  match popD config "volume" with
  | (Option.none, _) => (.ok Option.none, config)
  | (some vv, c) =>
    match vv with
    | .pdict vd =>
      (match lookupD vd "mountpoint" with
      | Option.none =>
        (.error (.configurationError (appErr application_name
          "Invalid volume specification. Missing mountpoint.")), c)
      | some mp =>
        if lenient && (mp matches .pnone) then
          (.ok (some ⟨application_name, mp⟩), c)
        else
          match mp with
          | .pstr path =>
            if (path.data.head? == some '/') = false then
              (.error (.configurationError (appErr application_name
                ("Invalid volume specification. Mountpoint " ++ path
                  ++ " is not an absolute path."))), c)
            else
              let vd2 := (popD vd "mountpoint").2
              if vd2.isEmpty = false then
                (.error (.configurationError (appErr application_name
                  ("Invalid volume specification. Unrecognised keys: "
                    ++ joinSortedKeys vd2 ++ "."))), c)
              else (.ok (some ⟨application_name, .pstr path⟩), c)
          | other =>
            (.error (.configurationError (appErr application_name
              ("Invalid volume specification. Mountpoint " ++ pyStrOf other
                ++ " contains non-ASCII (unsupported)."))), c))
    | other =>
      (.error (.configurationError (appErr application_name
        ("Invalid volume specification. Unexpected value: " ++ pyStrOf other))), c)

/-- One application of `_applications_from_flocker_configuration`
(`src/flocker/node/_config.py` lines 411–528): pops `image`, `ports`,
`links`, `volume` and `environment` off the application's config dict,
builds the `Application`, and rejects leftover keys.  Returns the result
together with the mutated config dict (pops before a failure persist). -/
def parse_flocker_app (lenient : Bool) (application_name : String) (config : PyDict) :
    (Except PyErr CApplication) × PyDict :=
  match popD config "image" with
  | (Option.none, _) =>
    (.error (.configurationError (appErr application_name
      "Missing value for 'image'.")), config)
  | (some image_name, c1) =>
    match dockerImageFromString image_name with
    | .error m =>
      (.error (.configurationError (appErr application_name
        ("Invalid Docker image name. " ++ m))), c1)
    | .ok image =>
      let pp := popDdef c1 "ports" (.plist [])
      match parse_flocker_ports application_name pp.1 with
      | .error e => (.error e, pp.2)
      | .ok ports =>
        let pl := popDdef pp.2 "links" (.plist [])
        match parse_link_configuration application_name pl.1 with
        | .error e => (.error e, pl.2)
        | .ok links =>
          match parse_flocker_volume lenient application_name pl.2 with
          | (.error e, c2) => (.error e, c2)
          | (.ok volume, c2) =>
            match parse_environment_config application_name c2 with
            | (.error e, c3) => (.error e, c3)
            | (.ok environment, c3) =>
              if c3.isEmpty = false then
                (.error (.configurationError (appErr application_name
                  ("Unrecognised keys: " ++ joinSortedKeys c3 ++ "."))), c3)
              else
                (.ok ⟨application_name, image, volume, ports, links, environment⟩, c3)

/-- The application loop of `_applications_from_flocker_configuration`:
each entry of the `applications` dict is parsed in order; the returned
dict reflects the pops made so far (also when an entry fails). -/
def parse_flocker_apps (lenient : Bool) : PyDict → (Except PyErr AppMap) × PyDict
  | [] => (.ok [], [])
  | (name, .pdict config) :: rest =>
    match parse_flocker_app lenient name config with
    | (.error e, c) => (.error e, (name, .pdict c) :: rest)
    | (.ok app, c) =>
      match parse_flocker_apps lenient rest with
      | (.error e, rest2) => (.error e, (name, .pdict c) :: rest2)
      | (.ok apps, rest2) => (.ok ((name, app) :: apps), (name, .pdict c) :: rest2)
  | (name, v) :: rest => (.error (.attributeError "pop"), (name, v) :: rest)

/-- Python `value == 1` (`True == 1` holds in Python 2; floats are not
modelled), as used by the `version` checks. -/
def pyEqOne : PyValue → Bool
  | .pint n => n == 1
  | .pbool b => b
  | _ => false

/-- `Configuration._applications_from_flocker_configuration`
(`src/flocker/node/_config.py` lines 384–529): requires `applications`
and `version` keys and `version == 1` (Python `==`, so `True` also
passes), then parses each application.  Returns the result and the
configuration with its mutations. -/
def applications_from_flocker_configuration (lenient : Bool) (cfg : PyDict) :
    (Except PyErr AppMap) × PyDict :=
  if hasKey cfg "applications" = false then
    (.error (.configurationError
      "Application configuration has an error. Missing 'applications' key."), cfg)
  else if hasKey cfg "version" = false then
    (.error (.configurationError
      "Application configuration has an error. Missing 'version' key."), cfg)
  else if pyEqOne (getD cfg "version") = false then
    (.error (.configurationError
      "Application configuration has an error. Incorrect version specified."), cfg)
  else
    match getD cfg "applications" with
    | .pdict apps =>
      let r := parse_flocker_apps lenient apps
      (r.1, setD cfg "applications" (.pdict r.2))
    | _ => (.error (.attributeError "items"), cfg)

/-- `Configuration._count_fig_identifier_keys`
(`src/flocker/node/_config.py` lines 167–180). -/
def count_fig_identifier_keys (config : PyDict) : Nat :=
  (if hasKey config "image" then 1 else 0) + (if hasKey config "build" then 1 else 0)

/-- `Configuration._is_fig_configuration` (`src/flocker/node/_config.py`
lines 531–575): a non-dict is a `ConfigurationError`; otherwise the
configuration is fig-style when some application defines exactly one of
`image`/`build` (both at once is an error). -/
def is_fig_configuration (v : PyValue) : Except PyErr (Bool × PyDict) :=
  match v with
  | .pdict d => do
    let b ← detect d
    .ok (b, d)
  | other =>
    .error (.configurationError
      ("Application configuration must be a dictionary, got " ++ pyTypeName other ++ "."))
where
  detect : List (String × PyValue) → Except PyErr Bool
    | [] => .ok false
    | (name, .pdict c) :: rest =>
      if count_fig_identifier_keys c > 1 then
        .error (.configurationError (appErr name
          "Must specify either 'build' or 'image'; found both."))
      else do
        let r ← detect rest
        .ok (count_fig_identifier_keys c == 1 || r)
    | _ :: rest => detect rest

/-- A pending link recorded by the first loop of
`_applications_from_fig_configuration` (the `application_links` entries;
their `ports` sub-dict is always `{local: None, remote: None}` at this
point, so it is not carried). -/
structure FigLinkDef where
  target_application : String
  aliasName : String

/-- The unsupported fig keys of
`src/flocker/node/_config.py` lines 213–217. -/
def unsupportedFigKeys : List String :=
  ["working_dir", "entrypoint", "user", "hostname", "domainname", "mem_limit",
   "privileged", "dns", "net", "volumes_from", "expose", "command"]

/-- The allowed fig keys of `src/flocker/node/_config.py` lines 218–219. -/
def allowedFigKeys : List String :=
  ["image", "environment", "ports", "links", "volumes"]

/-- The `environment` stanza of the fig parser
(`src/flocker/node/_config.py` lines 247–258): a dict whose values must
be strings, kept as a `frozenset` of items. -/
def parse_fig_environment (application_name : String) (v : PyValue) :
    Except PyErr EnvValue :=
  match v with
  | .pdict ed => (env_items ed).map EnvValue.fset
  | other =>
    .error (.configurationError (appErr application_name
      ("'environment' must be a dictionary; got type '" ++ pyTypeName other ++ "'.")))
where
  env_items : List (String × PyValue) → Except PyErr (List (String × String))
    | [] => .ok []
    | (k, .pstr s) :: rest => do
      let r ← env_items rest
      .ok ((k, s) :: r)
    | (k, v) :: _ =>
      .error (.configurationError (appErr application_name
        ("'environment' value for '" ++ k ++ "' must be a string; got type '"
          ++ pyTypeName v ++ "'.")))

/-- The `volumes` stanza of the fig parser
(`src/flocker/node/_config.py` lines 259–282): a list of at most one
string; `config['volumes'].pop()` takes (and removes) the last element,
raising `IndexError` on an empty list.  Returns the volume and the list
as mutated by the pop. -/
def parse_fig_volumes (application_name : String) (v : PyValue) :
    (Except PyErr (Option CVolume)) × PyValue :=
  match v with
  | .plist vs =>
    match all_strings vs with
    | some bad =>
      ((.error (.configurationError
        ("Application '" ++ application_name ++ "' has a config error. "
          ++ "'volumes' values must be string; got type '" ++ pyTypeName bad ++ "'."))),
        .plist vs)
    | Option.none =>
      if vs.length > 1 then
        ((.error (.configurationError
          ("Application '" ++ application_name ++ "' has a config error. "
            ++ "Only one volume per application is supported at this time."))),
          .plist vs)
      else
        match vs.getLast? with
        | Option.none => (.error .indexError, .plist vs)
        | some last => (.ok (some ⟨application_name, last⟩), .plist vs.dropLast)
  | other =>
    (.error (.configurationError (appErr application_name
      ("'volumes' must be a list; got type '" ++ pyTypeName other ++ "'."))), other)
where
  /-- The first non-string element, if any. -/
  all_strings : List PyValue → Option PyValue
    | [] => Option.none
    | .pstr _ :: rest => all_strings rest
    | v :: _ => some v

/-- The `ports` stanza of the fig parser
(`src/flocker/node/_config.py` lines 286–316): each entry is a
`"host_port:container_port"` string; `.split` on a non-string raises
`AttributeError`. -/
def parse_fig_ports (application_name : String) (v : PyValue) :
    Except PyErr (List CPort) :=
  match v with
  | .plist ps => ports_list ps
  | other =>
    .error (.configurationError (appErr application_name
      ("'ports' must be a list; got type '" ++ pyTypeName other ++ "'.")))
where
  ports_list : List PyValue → Except PyErr (List CPort)
    | [] => .ok []
    | .pstr port :: rest =>
      (match splitColonStr port with
      | [hostPart, containerPart] =>
        (match pyInt? hostPart, pyInt? containerPart with
        | some host, some container => do
          let ps ← ports_list rest
          .ok (⟨.pint container, .pint host⟩ :: ps)
        | _, _ =>
          .error (.configurationError (appErr application_name
            ("'ports' value '" ++ port
              ++ "' could not be parsed in to integer values."))))
      | _ =>
        .error (.configurationError (appErr application_name
          "'ports' must be list of string values in the form of 'host_port:container_port'.")))
    | _ :: _ => .error (.attributeError "split")

/-- The `links` stanza of the fig parser
(`src/flocker/node/_config.py` lines 317–347): each entry is
`"application[:alias]"`; with two or more colons the alias silently stays
the application name.  The named application must exist. -/
def parse_fig_links (application_name : String) (all_names : List String) (v : PyValue) :
    Except PyErr (List FigLinkDef) :=
  match v with
  | .plist ls => links_list ls
  | other =>
    .error (.configurationError (appErr application_name
      ("'links' must be a list; got type '" ++ pyTypeName other ++ "'.")))
where
  links_list : List PyValue → Except PyErr (List FigLinkDef)
    | [] => .ok []
    | .pstr link :: rest =>
      (let parsed := splitColonStr link
      let localLink := parsed.headD ""
      let aliasedLink := if parsed.length == 2 then parsed.getD 1 "" else localLink
      if all_names.contains localLink = false then
        .error (.configurationError (appErr application_name
          ("'links' value '" ++ link ++ "' could not be mapped to any application; "
            ++ "application '" ++ link ++ "' does not exist.")))
      else do
        let r ← links_list rest
        .ok (⟨localLink, aliasedLink⟩ :: r))
    | _ :: _ =>
      .error (.configurationError (appErr application_name
        "'links' must be a list of application names with optional :alias."))

/-- One application of the first loop of
`_applications_from_fig_configuration` (`src/flocker/node/_config.py`
lines 199–362): the key checks, then the `environment`, `volumes`,
`ports` and `links` stanzas in that order.  Returns the parsed
application with its pending link definitions, and the config value as
mutated (only the `volumes` pop mutates it). -/
def parse_fig_app (all_names : List String) (application_name : String) (configv : PyValue) :
    (Except PyErr (CApplication × List FigLinkDef)) × PyValue :=
  match configv with
  | .pdict config =>
    if count_fig_identifier_keys config == 0 then
      ((.error (.configurationError (appErr application_name
        "Application configuration must contain either an 'image' or 'build' key."))),
        configv)
    else if hasKey config "build" then
      ((.error (.configurationError (appErr application_name
        "'build' is not supported yet; please specify 'image'."))), configv)
    else
      let present := keysOf config
      let presentUnsupported := sortStrings (present.filter (unsupportedFigKeys.contains ·))
      if presentUnsupported.isEmpty = false then
        ((.error (.configurationError (appErr application_name
          ("Unsupported fig keys found: " ++ joinComma presentUnsupported)))), configv)
      else
        let invalid := present.filter (fun k => !(allowedFigKeys.contains k))
        if invalid.isEmpty = false then
          ((.error (.configurationError (appErr application_name
            ("Unrecognised keys: " ++ joinComma invalid)))), configv)
        else if isInstStr (getD config "image") = false then
          ((.error (.configurationError (appErr application_name
            ("'image' must be a string; got type '"
              ++ pyTypeName (getD config "image") ++ "'.")))), configv)
        else
          match dockerImageFromString (getD config "image") with
          | .error m =>
            ((.error (.configurationError (appErr application_name m))), configv)
          | .ok image =>
            match (if hasKey config "environment" then
                     (parse_fig_environment application_name (getD config "environment"))
                   else .ok (.raw .pnone)) with
            | .error e => (.error e, configv)
            | .ok environment =>
              match (if hasKey config "volumes" then
                       parse_fig_volumes application_name (getD config "volumes")
                     else (.ok Option.none, .pnone)) with
              | (.error e, _) => (.error e, configv)
              | (.ok volume, volumes2) =>
                let config2 :=
                  if hasKey config "volumes" then setD config "volumes" volumes2 else config
                match (if hasKey config2 "ports" then
                         parse_fig_ports application_name (getD config2 "ports")
                       else .ok []) with
                | .error e => (.error e, .pdict config2)
                | .ok ports =>
                  match (if hasKey config2 "links" then
                           parse_fig_links application_name all_names (getD config2 "links")
                         else .ok []) with
                  | .error e => (.error e, .pdict config2)
                  | .ok linkDefs =>
                    ((.ok (⟨application_name, image, volume, ports, [], environment⟩,
                      linkDefs)), .pdict config2)
  | other =>
    ((.error (.configurationError (appErr application_name
      ("Application configuration must be dictionary; got type '"
        ++ pyTypeName other ++ "'.")))), other)

/-- The first loop of `_applications_from_fig_configuration` over all
applications, in order, threading each application's mutations. -/
def parse_fig_apps (all_names : List String) :
    PyDict → (Except PyErr (AppMap × List (String × List FigLinkDef))) × PyDict
  | [] => (.ok ([], []), [])
  | (name, cv) :: rest =>
    match parse_fig_app all_names name cv with
    | (.error e, cv2) => (.error e, (name, cv2) :: rest)
    | (.ok (app, lds), cv2) =>
      match parse_fig_apps all_names rest with
      | (.error e, rest2) => (.error e, (name, cv2) :: rest2)
      | (.ok (apps, links), rest2) =>
        (.ok ((name, app) :: apps, (name, lds) :: links), (name, cv2) :: rest2)

/-- Replace one application's links (`applications[name].links = ...`). -/
def setAppLinks : AppMap → String → List CLink → AppMap
  | [], _, _ => []
  | (n, a) :: rest, name, links =>
    if n = name then (n, { a with links := links }) :: rest
    else (n, a) :: setAppLinks rest name links

/-- One application's links in the second loop of
`_applications_from_fig_configuration` (`src/flocker/node/_config.py`
lines 363–381): the recorded remote port is always `None`, so each link
takes the first of the target application's ports —
`iter(target_application_ports).next()` raises `StopIteration` when the
target declares no ports.  (`frozenset` iteration order is modelled as
construction order.) -/
def fig_links_for (apps : AppMap) : List FigLinkDef → Except PyErr (List CLink)
  | [] => .ok []
  | ld :: rest =>
    match lookupApp apps ld.target_application with
    | Option.none => .error (.keyError ld.target_application)
    | some target =>
      match target.ports with
      | [] => .error .stopIteration
      | p :: _ => do
        let r ← fig_links_for apps rest
        .ok (⟨p.internal_port, p.external_port, ld.aliasName⟩ :: r)

/-- The second loop of `_applications_from_fig_configuration`: resolves
every application's pending links against the (mutating) applications
map. -/
def resolve_fig_links (apps : AppMap) :
    List (String × List FigLinkDef) → Except PyErr AppMap
  | [] => .ok apps
  | (name, lds) :: rest => do
    let links ← fig_links_for apps lds
    resolve_fig_links (setAppLinks apps name links) rest

/-- `Configuration._applications_from_fig_configuration`
(`src/flocker/node/_config.py` lines 182–382). -/
def applications_from_fig_configuration (cfg : PyDict) :
    (Except PyErr AppMap) × PyDict :=
  match parse_fig_apps (keysOf cfg) cfg with
  | (.error e, cfg2) => (.error e, cfg2)
  | (.ok (apps, links), cfg2) =>
    match resolve_fig_links apps links with
    | .error e => (.error e, cfg2)
    | .ok apps2 => (.ok apps2, cfg2)

/-- `Configuration._applications_from_configuration`
(`src/flocker/node/_config.py` lines 577–598): fig detection, then the
matching parser.  Returns the result and the configuration with any
mutations made. -/
def applications_from_configuration (lenient : Bool) (v : PyValue) :
    (Except PyErr AppMap) × PyValue :=
  match is_fig_configuration v with
  | .error e => (.error e, v)
  | .ok (true, d) =>
    let r := applications_from_fig_configuration d
    (r.1, .pdict r.2)
  | .ok (false, d) =>
    let r := applications_from_flocker_configuration lenient d
    (r.1, .pdict r.2)

/-- The `"Unrecognised application name"` message of
`src/flocker/node/_config.py` lines 643–648. -/
def unrecognisedAppMsg (hostname name : String) : String :=
  "Node " ++ hostname ++ " has a config error. Unrecognised application name: "
    ++ name ++ "."

/-- The inner loop of `_deployment_from_configuration`: look up each
listed application name (`all_applications.get(name)`); an unknown name
is the `"Unrecognised application name"` `ConfigurationError`
(an unhashable name raises `TypeError`). -/
def parse_node_applications (hostname : String) (all_applications : AppMap) :
    List PyValue → Except PyErr (List CApplication)
  | [] => .ok []
  | .pstr s :: rest =>
    (match lookupApp all_applications s with
    | Option.none => .error (.configurationError (unrecognisedAppMsg hostname s))
    | some app => do
      let r ← parse_node_applications hostname all_applications rest
      .ok (app :: r))
  | .plist _ :: _ => .error (.typeError "unhashable type")
  | .pdict _ :: _ => .error (.typeError "unhashable type")
  | other :: _ =>
    .error (.configurationError (unrecognisedAppMsg hostname (pyStrOf other)))

/-- The node loop of `_deployment_from_configuration`
(`src/flocker/node/_config.py` lines 628–653): each node's value must be
a list of known application names. -/
def parse_nodes (all_applications : AppMap) :
    List (String × PyValue) → Except PyErr (List CNode)
  | [] => .ok []
  | (hostname, .plist names) :: rest => do
    let apps ← parse_node_applications hostname all_applications names
    let ns ← parse_nodes all_applications rest
    .ok (⟨hostname, apps⟩ :: ns)
  | (hostname, v) :: _ =>
    .error (.configurationError ("Node " ++ hostname
      ++ " has a config error. Wrong value type: " ++ pyTypeName v
      ++ ". Should be list."))

/-- `Configuration._deployment_from_configuration`
(`src/flocker/node/_config.py` lines 600–653): requires `nodes` and
`version` keys and `version == 1`, then parses the node map.  It never
mutates its input. -/
def deployment_from_configuration (depv : PyValue) (all_applications : AppMap) :
    Except PyErr (List CNode) :=
  match depv with
  | .pdict d =>
    if hasKey d "nodes" = false then
      .error (.configurationError
        "Deployment configuration has an error. Missing 'nodes' key.")
    else if hasKey d "version" = false then
      .error (.configurationError
        "Deployment configuration has an error. Missing 'version' key.")
    else if pyEqOne (getD d "version") = false then
      .error (.configurationError
        "Deployment configuration has an error. Incorrect version specified.")
    else
      match getD d "nodes" with
      | .pdict nodesd => parse_nodes all_applications nodesd
      | _ => .error (.attributeError "items")
  | _ => .error (.typeError "argument of type is not iterable")

/-- `Configuration.model_from_configuration`
(`src/flocker/node/_config.py` lines 655–678, as exposed at module level
with `lenient=False`): applications, then nodes, then the `Deployment`.
Returns the deployment and the application configuration as mutated by
parsing (the deployment configuration is never mutated). -/
def model_from_configuration
    (application_configuration deployment_configuration : PyValue) :
    (Except PyErr CDeployment) × PyValue :=
  match applications_from_configuration false application_configuration with
  | (.error e, st) => (.error e, st)
  | (.ok applications, st) =>
    match deployment_from_configuration deployment_configuration applications with
    | .error e => (.error e, st)
    | .ok nodes => (.ok ⟨nodes⟩, st)

/-! ## The wire domain model and codec (`src/flocker/control/_protocol.py`)

`_protocol.py` serializes `Deployment` values with
`serialize_deployment`/`deserialize_deployment` from
`flocker/control/_persistence.py` and `NodeState` values with
`pickle.dumps`/`pickle.loads`; neither codec's code is under `src/`, so
both are modelled from the spec (§4.1): a pure, injective transform whose
failures are a `DeserializationError` (§7) with no partial results.  The
payload is modelled as a token list. -/

/-- Modelled from the spec: `Port` of the domain model
(`flocker/node/_model.py`, not under `src/`): an internal/external
integer pair (§3). -/
structure Port where
  internal_port : Int
  external_port : Int
  deriving DecidableEq

/-- Modelled from the spec: `Link` of the domain model (§3):
local port, remote port, alias. -/
structure Link where
  local_port : Int
  remote_port : Int
  aliasName : String
  deriving DecidableEq

/-- Modelled from the spec: `AttachedVolume` of the domain model (§3):
name plus mountpoint path. -/
structure AttachedVolume where
  name : String
  mountpoint : String
  deriving DecidableEq

/-- Modelled from the spec: `Application` of the domain model (§3). -/
structure Application where
  name : String
  image : DockerImage
  volume : Option AttachedVolume
  ports : List Port
  links : List Link
  environment : Option (List (String × String))
  deriving DecidableEq

/-- Modelled from the spec: `Node` of the domain model (§3): a hostname
plus the applications running there. -/
structure Node where
  hostname : String
  applications : List Application
  deriving DecidableEq

/-- Modelled from the spec: `Deployment` of the domain model (§3): a set
of nodes. -/
structure Deployment where
  nodes : List Node
  deriving DecidableEq

/-- Modelled from the spec: the `NodeState` object a convergence agent
reports — the state of one node (§3's ClusterState maps hostnames to
reported node states). -/
abbrev NodeState := Node

/-- One unit of the opaque serialized payload. -/
inductive Tok where
  | tn (v : Nat)
  | ti (v : Int)
  | ts (v : String)
  deriving DecidableEq

/-- The opaque byte payload of the codec, modelled as a token list. -/
abbrev Bytes := List Tok

/-- Failure of the wire codec on a malformed payload (spec §7). -/
inductive DeserializationError where
  | malformed
  deriving DecidableEq

def encNat (n : Nat) : Bytes := [.tn n]

def encInt (i : Int) : Bytes := [.ti i]

def encStr (s : String) : Bytes := [.ts s]

/-- Concatenated encodings of the elements. -/
def encListGen (enc : α → Bytes) : List α → Bytes
  | [] => []
  | x :: xs => enc x ++ encListGen enc xs

/-- Length-prefixed list encoding. -/
def encList (enc : α → Bytes) (xs : List α) : Bytes :=
  encNat xs.length ++ encListGen enc xs

/-- Tag-prefixed option encoding. -/
def encOpt (enc : α → Bytes) : Option α → Bytes
  | Option.none => encNat 0
  | some x => encNat 1 ++ enc x

def encPair (f : α → Bytes) (g : β → Bytes) (p : α × β) : Bytes := f p.1 ++ g p.2

def encPort (p : Port) : Bytes := encInt p.internal_port ++ encInt p.external_port

def encLink (l : Link) : Bytes :=
  encInt l.local_port ++ encInt l.remote_port ++ encStr l.aliasName

def encImage (i : DockerImage) : Bytes := encStr i.repository ++ encStr i.tag

def encVolume (v : AttachedVolume) : Bytes := encStr v.name ++ encStr v.mountpoint

def encApp (a : Application) : Bytes :=
  encStr a.name ++ encImage a.image ++ encOpt encVolume a.volume
    ++ encList encPort a.ports ++ encList encLink a.links
    ++ encOpt (encList (encPair encStr encStr)) a.environment

def encNode (n : Node) : Bytes := encStr n.hostname ++ encList encApp n.applications

def encDeployment (d : Deployment) : Bytes := encList encNode d.nodes

/-- A decoder: consumes a prefix of the payload or fails. -/
abbrev Dec (α : Type) := Bytes → Except DeserializationError (α × Bytes)

def decNat : Dec Nat
  | .tn v :: r => .ok (v, r)
  | _ => .error .malformed

def decInt : Dec Int
  | .ti v :: r => .ok (v, r)
  | _ => .error .malformed

def decStr : Dec String
  | .ts v :: r => .ok (v, r)
  | _ => .error .malformed

def decListN (dec : Dec α) : Nat → Dec (List α)
  | 0, b => .ok ([], b)
  | n + 1, b =>
    match dec b with
    | .error e => .error e
    | .ok (x, b1) =>
      match decListN dec n b1 with
      | .error e => .error e
      | .ok (xs, b2) => .ok (x :: xs, b2)

def decList (dec : Dec α) : Dec (List α) := fun b =>
  match decNat b with
  | .error e => .error e
  | .ok (n, b1) => decListN dec n b1

def decOpt (dec : Dec α) : Dec (Option α) := fun b =>
  match decNat b with
  | .error e => .error e
  | .ok (0, b1) => .ok (Option.none, b1)
  | .ok (1, b1) =>
    match dec b1 with
    | .error e => .error e
    | .ok (x, b2) => .ok (some x, b2)
  | .ok (_, _) => .error .malformed

def decPair (f : Dec α) (g : Dec β) : Dec (α × β) := fun b =>
  match f b with
  | .error e => .error e
  | .ok (x, b1) =>
    match g b1 with
    | .error e => .error e
    | .ok (y, b2) => .ok ((x, y), b2)

def decPort : Dec Port := fun b =>
  match decPair decInt decInt b with
  | .error e => .error e
  | .ok ((i, e'), b1) => .ok (⟨i, e'⟩, b1)

def decLink : Dec Link := fun b =>
  match decPair decInt (decPair decInt decStr) b with
  | .error e => .error e
  | .ok ((l, (r, a)), b1) => .ok (⟨l, r, a⟩, b1)

def decImage : Dec DockerImage := fun b =>
  match decPair decStr decStr b with
  | .error e => .error e
  | .ok ((r, t), b1) => .ok (⟨r, t⟩, b1)

def decVolume : Dec AttachedVolume := fun b =>
  match decPair decStr decStr b with
  | .error e => .error e
  | .ok ((n, m), b1) => .ok (⟨n, m⟩, b1)

def decApp : Dec Application := fun b =>
  match decPair decStr (decPair decImage (decPair (decOpt decVolume)
      (decPair (decList decPort) (decPair (decList decLink)
        (decOpt (decList (decPair decStr decStr))))))) b with
  | .error e => .error e
  | .ok ((n, (i, (v, (p, (l, env))))), b1) => .ok (⟨n, i, v, p, l, env⟩, b1)

def decNode : Dec Node := fun b =>
  match decPair decStr (decList decApp) b with
  | .error e => .error e
  | .ok ((h, apps), b1) => .ok (⟨h, apps⟩, b1)

def decDeployment : Dec Deployment := fun b =>
  match decList decNode b with
  | .error e => .error e
  | .ok (ns, b1) => .ok (⟨ns⟩, b1)

/-- Modelled from the spec: `serialize_deployment` from
`flocker/control/_persistence.py` (not under `src/`): the pure
serialization of a `Deployment` object graph (§4.1). -/
def serialize_deployment (deployment : Deployment) : Bytes := encDeployment deployment

/-- Modelled from the spec: `deserialize_deployment` from
`flocker/control/_persistence.py` (not under `src/`): inverts
`serialize_deployment`; any payload that is not a complete serialization
is a `DeserializationError`, with no partial result (§4.1, §7). -/
def deserialize_deployment (in_bytes : Bytes) : Except DeserializationError Deployment :=
  match decDeployment in_bytes with
  | .ok (d, []) => .ok d
  | .ok (_, _ :: _) => .error .malformed
  | .error e => .error e

namespace NodeStateArgument

/-- Modelled from the spec: `NodeStateArgument.toString`
(`src/flocker/control/_protocol.py` lines 38–46) is `pickle.dumps` on the
`NodeState`; the pickle codec itself is external, modelled as the same
kind of injective object-graph serialization (§4.1). -/
def toString (node_state : NodeState) : Bytes := encNode node_state

/-- Modelled from the spec: `NodeStateArgument.fromString` is
`pickle.loads`; an incomplete or malformed payload is a
`DeserializationError` with no partial result (§4.1, §7). -/
def fromString (in_bytes : Bytes) : Except DeserializationError NodeState :=
  match decNode in_bytes with
  | .ok (n, []) => .ok n
  | .ok (_, _ :: _) => .error .malformed
  | .error e => .error e

end NodeStateArgument

namespace DeploymentArgument

/-- `DeploymentArgument.toString` (`src/flocker/control/_protocol.py`
lines 49–57): delegates to `serialize_deployment`. -/
def toString (deployment : Deployment) : Bytes := serialize_deployment deployment

/-- `DeploymentArgument.fromString`: delegates to
`deserialize_deployment`. -/
def fromString (in_bytes : Bytes) : Except DeserializationError Deployment :=
  deserialize_deployment in_bytes

end DeploymentArgument

/-! ## The control-side locator and the cluster-state aggregator -/

/-- The aggregator's state: hostname to most recently reported node
state (spec §3, ClusterState). -/
abbrev ClusterStateMap := String → Option NodeState

/-- Modelled from the spec: `ClusterStateService.update_node_state` (the
aggregator is not under `src/`): replaces the stored state for
`hostname`, inserting if new (§4.5). -/
def update_node_state (m : ClusterStateMap) (hostname : String) (node_state : NodeState) :
    ClusterStateMap :=
  fun k => if k = hostname then some node_state else m k

/-- An AMP response box; the empty acknowledgment is `[]`. -/
abbrev AmpResponse := List (String × Bytes)

/-- `ControlServiceLocator.version` (`src/flocker/control/_protocol.py`
lines 104–106): the `VersionCommand` responder's `{"major": 1}`. -/
def version : List (String × Int) := [("major", 1)]

/-- `ControlServiceLocator.node_changed` (`src/flocker/control/_protocol.py`
lines 108–111): the `NodeStateCommand` responder — pushes the reported
state into the aggregator, then returns the empty acknowledgment.  The
locator's state is the aggregator's map, threaded explicitly. -/
def node_changed (cluster_state : ClusterStateMap) (hostname : String)
    (node_state : NodeState) : ClusterStateMap × AmpResponse :=
  (update_node_state cluster_state hostname node_state, [])

/-! ## The agent-side locator and connection lifecycle -/

/-- A call made on the `IConvergenceAgent` collaborator
(`src/flocker/control/_protocol.py` lines 114–144). -/
inductive AgentCall where
  | connected
  | clusterUpdated (configuration state : Deployment)
  | disconnected
  deriving DecidableEq

/-- `_AgentLocator.cluster_updated` (`src/flocker/control/_protocol.py`
lines 158–161): the `ClusterStatusCommand` responder — forwards
configuration and state to the agent, then returns the empty
acknowledgment. -/
def cluster_updated (configuration state : Deployment) : AgentCall × AmpResponse :=
  (.clusterUpdated configuration state, [])

/-- Modelled from the spec: the dispatcher's handling of one inbound
`ClusterStatusCommand` box (§4.2): each `DeploymentArgument` is decoded
with `fromString`, then the locator's responder runs.  The AMP framing
itself is Twisted's (external). -/
def handleClusterStatusBox (rawConfiguration rawState : Bytes) :
    Except DeserializationError (AgentCall × AmpResponse) :=
  match DeploymentArgument.fromString rawConfiguration with
  | .error e => .error e
  | .ok configuration =>
    match DeploymentArgument.fromString rawState with
    | .error e => .error e
    | .ok state => .ok (cluster_updated configuration state)

/-- A transport-level event delivered to `_AgentBoxReceiver`
(`src/flocker/control/_protocol.py` lines 164–182). -/
inductive TransportEvent where
  | startReceivingBoxes
  | clusterStatusBox (configuration state : Deployment)
  | stopReceivingBoxes (reason : String)

/-- The agent calls `_AgentBoxReceiver`/`_AgentLocator` make for one
transport event: `startReceivingBoxes` calls `agent.connected`, a
dispatched `ClusterStatusCommand` box calls `agent.cluster_updated`, and
`stopReceivingBoxes` calls `agent.disconnected`. -/
def agentCalls : TransportEvent → List AgentCall
  | .startReceivingBoxes => [.connected]
  | .clusterStatusBox configuration state => [(cluster_updated configuration state).1]
  | .stopReceivingBoxes _ => [.disconnected]

/-- The agent calls made over a whole sequence of transport events, in
order. -/
def agentTrace : List TransportEvent → List AgentCall
  | [] => []
  | e :: rest => agentCalls e ++ agentTrace rest

def isClusterStatusBox : TransportEvent → Bool
  | .clusterStatusBox _ _ => true
  | _ => false

/-- Modelled from the spec: the transport event order AMP guarantees to a
box receiver for one completed connection (§4.2's per-connection state
machine): `startReceivingBoxes` first, then only command boxes, then one
`stopReceivingBoxes`, and nothing after. -/
def CompletedConnection (evts : List TransportEvent) : Prop :=
  ∃ boxes reason, (∀ e ∈ boxes, isClusterStatusBox e = true) ∧
    evts = TransportEvent.startReceivingBoxes :: boxes
      ++ [TransportEvent.stopReceivingBoxes reason]

/-! ## Substring occurrence ("the message mentions ...") -/

/-- Whether `s` is a leading segment of `t` (over characters). -/
def leadsWith : List Char → List Char → Bool
  | [], _ => true
  | _ :: _, [] => false
  | c :: cs, d :: ds => c == d && leadsWith cs ds

/-- Whether `sub` occurs contiguously in the second list. -/
def occursIn (sub : List Char) : List Char → Bool
  | [] => sub.isEmpty
  | c :: rest => leadsWith sub (c :: rest) || occursIn sub rest

/-- A message mentions `sub` when `sub` occurs in it. -/
def Mentions (msg sub : String) : Prop := occursIn sub.data msg.data = true

instance (msg sub : String) : Decidable (Mentions msg sub) := by
  unfold Mentions; infer_instance

/-- Every node entry of a deployment `nodes` map is a list of strings
(the shape the deployment parser's per-node checks accept without a
type error). -/
def nodesWellTyped (nodesd : List (String × PyValue)) : Bool :=
  nodesd.all (fun p => match p.2 with
    | .plist vs => vs.all (fun v => v matches .pstr _)
    | _ => false)

/-- Some node entry references an application name absent from the
parsed applications map. -/
def hasUnresolvedName (apps : AppMap) (nodesd : List (String × PyValue)) : Bool :=
  nodesd.any (fun p => match p.2 with
    | .plist vs => vs.any (fun v => match v with
        | .pstr s => (lookupApp apps s).isNone
        | _ => false)
    | _ => false)

/-! ## Helper lemmas -/

theorem leadsWith_append (s t : List Char) : leadsWith s (s ++ t) = true := by
  induction s with
  | nil => rfl
  | cons c cs ih => simp [leadsWith, ih]

theorem occursIn_self_append (s t : List Char) : occursIn s (s ++ t) = true := by
  cases s with
  | nil =>
    cases t with
    | nil => rfl
    | cons c r => simp [occursIn, leadsWith]
  | cons c cs =>
    have h := leadsWith_append (c :: cs) t
    simp only [List.cons_append] at h
    simp [occursIn, h]

theorem occursIn_append_left (s x t : List Char) (h : occursIn s t = true) :
    occursIn s (x ++ t) = true := by
  induction x with
  | nil => simpa using h
  | cons c cs ih => simp [occursIn, ih]

theorem Mentions_of_parts (p sub q : String) : Mentions (p ++ (sub ++ q)) sub := by
  unfold Mentions
  rw [String.data_append, String.data_append]
  exact occursIn_append_left _ _ _ (occursIn_self_append _ _)

theorem popD_absent (d : PyDict) (k : String) (h : lookupD d k = Option.none) :
    popD d k = (Option.none, d) := by
  induction d with
  | nil => rfl
  | cons p rest ih =>
    obtain ⟨k', v⟩ := p
    by_cases hk : k' = k
    · simp [lookupD, hk] at h
    · simp [lookupD, hk] at h
      simp [popD, hk, ih h]

theorem decPair_enc (f : Dec α) (g : Dec β) (ef : α → Bytes) (eg : β → Bytes)
    (hf : ∀ v r, f (ef v ++ r) = .ok (v, r)) (hg : ∀ v r, g (eg v ++ r) = .ok (v, r))
    (p : α × β) (r : Bytes) : decPair f g (encPair ef eg p ++ r) = .ok (p, r) := by
  have h : encPair ef eg p ++ r = ef p.1 ++ (eg p.2 ++ r) := by
    simp [encPair]
  rw [decPair, h, hf]
  dsimp only
  rw [hg]

theorem decListN_enc (dec : Dec α) (enc : α → Bytes)
    (h : ∀ v r, dec (enc v ++ r) = .ok (v, r)) :
    ∀ (xs : List α) (r : Bytes), decListN dec xs.length (encListGen enc xs ++ r) = .ok (xs, r)
  | [], _ => rfl
  | x :: xs, r => by
    have e : encListGen enc (x :: xs) ++ r = enc x ++ (encListGen enc xs ++ r) := by
      simp [encListGen]
    simp only [List.length_cons, decListN, e, h, decListN_enc dec enc h xs r]

theorem decList_enc (dec : Dec α) (enc : α → Bytes)
    (h : ∀ v r, dec (enc v ++ r) = .ok (v, r))
    (xs : List α) (r : Bytes) : decList dec (encList enc xs ++ r) = .ok (xs, r) := by
  have e : encList enc xs ++ r = Tok.tn xs.length :: (encListGen enc xs ++ r) := by
    simp [encList, encNat]
  rw [decList, e]
  simpa [decNat] using decListN_enc dec enc h xs r

theorem decOpt_enc (dec : Dec α) (enc : α → Bytes)
    (h : ∀ v r, dec (enc v ++ r) = .ok (v, r)) :
    ∀ (o : Option α) (r : Bytes), decOpt dec (encOpt enc o ++ r) = .ok (o, r)
  | Option.none, r => rfl
  | some x, r => by
    have e : encOpt enc (some x) ++ r = Tok.tn 1 :: (enc x ++ r) := by
      simp [encOpt, encNat]
    rw [decOpt, e]
    simp [decNat, h]

theorem decPort_enc (p : Port) (r : Bytes) : decPort (encPort p ++ r) = .ok (p, r) := by
  rw [decPort,
    show encPort p ++ r
      = encPair encInt encInt (p.internal_port, p.external_port) ++ r from rfl,
    decPair_enc _ _ _ _ (fun _ _ => rfl) (fun _ _ => rfl)]

theorem decLink_enc (l : Link) (r : Bytes) : decLink (encLink l ++ r) = .ok (l, r) := by
  rw [decLink,
    show encLink l ++ r
      = encPair encInt (encPair encInt encStr)
          (l.local_port, (l.remote_port, l.aliasName)) ++ r from by
        simp [encLink, encPair],
    decPair_enc _ _ _ _ (fun _ _ => rfl)
      (decPair_enc _ _ _ _ (fun _ _ => rfl) (fun _ _ => rfl))]

theorem decImage_enc (i : DockerImage) (r : Bytes) : decImage (encImage i ++ r) = .ok (i, r) := by
  rw [decImage,
    show encImage i ++ r = encPair encStr encStr (i.repository, i.tag) ++ r from rfl,
    decPair_enc _ _ _ _ (fun _ _ => rfl) (fun _ _ => rfl)]

theorem decVolume_enc (v : AttachedVolume) (r : Bytes) :
    decVolume (encVolume v ++ r) = .ok (v, r) := by
  rw [decVolume,
    show encVolume v ++ r = encPair encStr encStr (v.name, v.mountpoint) ++ r from rfl,
    decPair_enc _ _ _ _ (fun _ _ => rfl) (fun _ _ => rfl)]

theorem decApp_enc (a : Application) (r : Bytes) : decApp (encApp a ++ r) = .ok (a, r) := by
  rw [decApp,
    show encApp a ++ r
      = encPair encStr (encPair encImage (encPair (encOpt encVolume)
          (encPair (encList encPort) (encPair (encList encLink)
            (encOpt (encList (encPair encStr encStr)))))))
          (a.name, (a.image, (a.volume, (a.ports, (a.links, a.environment))))) ++ r from by
        simp [encApp, encPair],
    decPair_enc _ _ _ _ (fun _ _ => rfl)
      (decPair_enc _ _ _ _ decImage_enc
        (decPair_enc _ _ _ _ (decOpt_enc _ _ decVolume_enc)
          (decPair_enc _ _ _ _ (decList_enc _ _ decPort_enc)
            (decPair_enc _ _ _ _ (decList_enc _ _ decLink_enc)
              (decOpt_enc _ _ (decList_enc _ _
                (decPair_enc _ _ _ _ (fun _ _ => rfl) (fun _ _ => rfl))))))))]

theorem decNode_enc (n : Node) (r : Bytes) : decNode (encNode n ++ r) = .ok (n, r) := by
  rw [decNode,
    show encNode n ++ r
      = encPair encStr (encList encApp) (n.hostname, n.applications) ++ r from by
        simp [encNode, encPair],
    decPair_enc _ _ _ _ (fun _ _ => rfl) (decList_enc _ _ decApp_enc)]

theorem decDeployment_enc (d : Deployment) (r : Bytes) :
    decDeployment (encDeployment d ++ r) = .ok (d, r) := by
  rw [decDeployment,
    show encDeployment d ++ r = encList encNode d.nodes ++ r from rfl,
    decList_enc _ _ decNode_enc]

theorem decNat_canon (b : Bytes) (n : Nat) (r : Bytes) (h : decNat b = .ok (n, r)) :
    b = encNat n ++ r := by
  match b with
  | [] => simp [decNat] at h
  | .tn v :: rest =>
    simp [decNat] at h
    simp [encNat, h.1, h.2]
  | .ti v :: rest => simp [decNat] at h
  | .ts v :: rest => simp [decNat] at h

theorem decInt_canon (b : Bytes) (n : Int) (r : Bytes) (h : decInt b = .ok (n, r)) :
    b = encInt n ++ r := by
  match b with
  | [] => simp [decInt] at h
  | .ti v :: rest =>
    simp [decInt] at h
    simp [encInt, h.1, h.2]
  | .tn v :: rest => simp [decInt] at h
  | .ts v :: rest => simp [decInt] at h

theorem decStr_canon (b : Bytes) (s : String) (r : Bytes) (h : decStr b = .ok (s, r)) :
    b = encStr s ++ r := by
  match b with
  | [] => simp [decStr] at h
  | .ts v :: rest =>
    simp [decStr] at h
    simp [encStr, h.1, h.2]
  | .tn v :: rest => simp [decStr] at h
  | .ti v :: rest => simp [decStr] at h

theorem decPair_canon (f : Dec α) (g : Dec β) (ef : α → Bytes) (eg : β → Bytes)
    (hf : ∀ b v r, f b = .ok (v, r) → b = ef v ++ r)
    (hg : ∀ b v r, g b = .ok (v, r) → b = eg v ++ r)
    (b : Bytes) (p : α × β) (r : Bytes) (h : decPair f g b = .ok (p, r)) :
    b = encPair ef eg p ++ r := by
  obtain ⟨p1, p2⟩ := p
  rw [decPair] at h
  cases hx : f b with
  | error e => rw [hx] at h; exact absurd h (by simp)
  | ok xr =>
    obtain ⟨x, b1⟩ := xr
    rw [hx] at h
    dsimp only at h
    cases hy : g b1 with
    | error e => rw [hy] at h; exact absurd h (by simp)
    | ok yr =>
      obtain ⟨y, b2⟩ := yr
      rw [hy] at h
      dsimp only at h
      rw [Except.ok.injEq, Prod.mk.injEq, Prod.mk.injEq] at h
      obtain ⟨⟨h1, h2⟩, h3⟩ := h
      rw [← h1, ← h2, ← h3, hf b x b1 hx, hg b1 y b2 hy]
      simp [encPair]

theorem decListN_canon (dec : Dec α) (enc : α → Bytes)
    (hd : ∀ b v r, dec b = .ok (v, r) → b = enc v ++ r) :
    ∀ (n : Nat) (b : Bytes) (xs : List α) (r : Bytes),
      decListN dec n b = .ok (xs, r) → xs.length = n ∧ b = encListGen enc xs ++ r := by
  intro n
  induction n with
  | zero =>
    intro b xs r h
    simp [decListN] at h
    obtain ⟨h1, h2⟩ := h
    subst h1; subst h2
    simp [encListGen]
  | succ m ih =>
    intro b xs r h
    rw [decListN] at h
    cases hx : dec b with
    | error e => rw [hx] at h; exact absurd h (by simp)
    | ok xr =>
      obtain ⟨x, b1⟩ := xr
      rw [hx] at h
      dsimp only at h
      cases hy : decListN dec m b1 with
      | error e => rw [hy] at h; exact absurd h (by simp)
      | ok yr =>
        obtain ⟨ys, b2⟩ := yr
        rw [hy] at h
        dsimp only at h
        rw [Except.ok.injEq, Prod.mk.injEq] at h
        obtain ⟨h1, h2⟩ := h
        obtain ⟨hl, hb⟩ := ih b1 ys b2 hy
        rw [← h1, ← h2]
        refine ⟨by simp [hl], ?_⟩
        rw [hd b x b1 hx, hb]
        simp [encListGen]

theorem decList_canon (dec : Dec α) (enc : α → Bytes)
    (hd : ∀ b v r, dec b = .ok (v, r) → b = enc v ++ r)
    (b : Bytes) (xs : List α) (r : Bytes) (h : decList dec b = .ok (xs, r)) :
    b = encList enc xs ++ r := by
  rw [decList] at h
  cases hx : decNat b with
  | error e => rw [hx] at h; exact absurd h (by simp)
  | ok nr =>
    obtain ⟨n, b1⟩ := nr
    rw [hx] at h
    dsimp only at h
    obtain ⟨hl, hb⟩ := decListN_canon dec enc hd n b1 xs r h
    rw [decNat_canon b n b1 hx, hb, ← hl]
    simp [encList, encNat]

theorem decOpt_canon (dec : Dec α) (enc : α → Bytes)
    (hd : ∀ b v r, dec b = .ok (v, r) → b = enc v ++ r)
    (b : Bytes) (o : Option α) (r : Bytes) (h : decOpt dec b = .ok (o, r)) :
    b = encOpt enc o ++ r := by
  rw [decOpt] at h
  cases hx : decNat b with
  | error e => rw [hx] at h; exact absurd h (by simp)
  | ok nr =>
    obtain ⟨n, b1⟩ := nr
    rw [hx] at h
    match n with
    | 0 =>
      dsimp only at h
      rw [Except.ok.injEq, Prod.mk.injEq] at h
      obtain ⟨h1, h2⟩ := h
      rw [← h1, ← h2]
      simpa [encOpt] using decNat_canon b 0 b1 hx
    | 1 =>
      dsimp only at h
      cases hy : dec b1 with
      | error e => rw [hy] at h; exact absurd h (by simp)
      | ok yr =>
        obtain ⟨y, b2⟩ := yr
        rw [hy] at h
        dsimp only at h
        rw [Except.ok.injEq, Prod.mk.injEq] at h
        obtain ⟨h1, h2⟩ := h
        rw [← h1, ← h2, decNat_canon b 1 b1 hx, hd b1 y b2 hy]
        simp [encOpt, encNat]
    | m + 2 => exact absurd h (by simp)

theorem decPort_canon (b : Bytes) (p : Port) (r : Bytes) (h : decPort b = .ok (p, r)) :
    b = encPort p ++ r := by
  rw [decPort] at h
  cases hx : decPair decInt decInt b with
  | error e => rw [hx] at h; exact absurd h (by simp)
  | ok xr =>
    obtain ⟨⟨i, e'⟩, b1⟩ := xr
    rw [hx] at h
    dsimp only at h
    rw [Except.ok.injEq, Prod.mk.injEq] at h
    obtain ⟨h1, h2⟩ := h
    rw [← h1, ← h2]
    exact decPair_canon _ _ _ _ decInt_canon decInt_canon b (i, e') b1 hx

theorem decLink_canon (b : Bytes) (l : Link) (r : Bytes) (h : decLink b = .ok (l, r)) :
    b = encLink l ++ r := by
  rw [decLink] at h
  cases hx : decPair decInt (decPair decInt decStr) b with
  | error e => rw [hx] at h; exact absurd h (by simp)
  | ok xr =>
    obtain ⟨⟨lp, rp, al⟩, b1⟩ := xr
    rw [hx] at h
    dsimp only at h
    rw [Except.ok.injEq, Prod.mk.injEq] at h
    obtain ⟨h1, h2⟩ := h
    rw [← h1, ← h2]
    have := decPair_canon _ _ _ _ decInt_canon
      (decPair_canon _ _ _ _ decInt_canon decStr_canon) b (lp, (rp, al)) b1 hx
    rw [this]
    simp [encPair, encLink]

theorem decImage_canon (b : Bytes) (i : DockerImage) (r : Bytes)
    (h : decImage b = .ok (i, r)) : b = encImage i ++ r := by
  rw [decImage] at h
  cases hx : decPair decStr decStr b with
  | error e => rw [hx] at h; exact absurd h (by simp)
  | ok xr =>
    obtain ⟨⟨rep, t⟩, b1⟩ := xr
    rw [hx] at h
    dsimp only at h
    rw [Except.ok.injEq, Prod.mk.injEq] at h
    obtain ⟨h1, h2⟩ := h
    rw [← h1, ← h2]
    exact decPair_canon _ _ _ _ decStr_canon decStr_canon b (rep, t) b1 hx

theorem decVolume_canon (b : Bytes) (v : AttachedVolume) (r : Bytes)
    (h : decVolume b = .ok (v, r)) : b = encVolume v ++ r := by
  rw [decVolume] at h
  cases hx : decPair decStr decStr b with
  | error e => rw [hx] at h; exact absurd h (by simp)
  | ok xr =>
    obtain ⟨⟨n, m⟩, b1⟩ := xr
    rw [hx] at h
    dsimp only at h
    rw [Except.ok.injEq, Prod.mk.injEq] at h
    obtain ⟨h1, h2⟩ := h
    rw [← h1, ← h2]
    exact decPair_canon _ _ _ _ decStr_canon decStr_canon b (n, m) b1 hx

theorem decApp_canon (b : Bytes) (a : Application) (r : Bytes)
    (h : decApp b = .ok (a, r)) : b = encApp a ++ r := by
  rw [decApp] at h
  cases hx : decPair decStr (decPair decImage (decPair (decOpt decVolume)
      (decPair (decList decPort) (decPair (decList decLink)
        (decOpt (decList (decPair decStr decStr))))))) b with
  | error e => rw [hx] at h; exact absurd h (by simp)
  | ok xr =>
    obtain ⟨⟨n, i, v, p, l, env⟩, b1⟩ := xr
    rw [hx] at h
    dsimp only at h
    rw [Except.ok.injEq, Prod.mk.injEq] at h
    obtain ⟨h1, h2⟩ := h
    rw [← h1, ← h2]
    have := decPair_canon _ _ _ _ decStr_canon
      (decPair_canon _ _ _ _ decImage_canon
        (decPair_canon _ _ _ _ (decOpt_canon _ _ decVolume_canon)
          (decPair_canon _ _ _ _ (decList_canon _ _ decPort_canon)
            (decPair_canon _ _ _ _ (decList_canon _ _ decLink_canon)
              (decOpt_canon _ _ (decList_canon _ _
                (decPair_canon _ _ _ _ decStr_canon decStr_canon)))))))
      b (n, (i, (v, (p, (l, env))))) b1 hx
    rw [this]
    simp [encPair, encApp]

theorem decNode_canon (b : Bytes) (n : Node) (r : Bytes)
    (h : decNode b = .ok (n, r)) : b = encNode n ++ r := by
  rw [decNode] at h
  cases hx : decPair decStr (decList decApp) b with
  | error e => rw [hx] at h; exact absurd h (by simp)
  | ok xr =>
    obtain ⟨⟨hn, apps⟩, b1⟩ := xr
    rw [hx] at h
    dsimp only at h
    rw [Except.ok.injEq, Prod.mk.injEq] at h
    obtain ⟨h1, h2⟩ := h
    rw [← h1, ← h2]
    have := decPair_canon _ _ _ _ decStr_canon (decList_canon _ _ decApp_canon)
      b (hn, apps) b1 hx
    rw [this]
    simp [encPair, encNode]

theorem decDeployment_canon (b : Bytes) (d : Deployment) (r : Bytes)
    (h : decDeployment b = .ok (d, r)) : b = encDeployment d ++ r := by
  rw [decDeployment] at h
  cases hx : decList decNode b with
  | error e => rw [hx] at h; exact absurd h (by simp)
  | ok xr =>
    obtain ⟨ns, b1⟩ := xr
    rw [hx] at h
    dsimp only at h
    rw [Except.ok.injEq, Prod.mk.injEq] at h
    obtain ⟨h1, h2⟩ := h
    rw [← h1, ← h2]
    exact decList_canon _ _ decNode_canon b ns b1 hx

theorem except_bind_ok (a : α) (f : α → Except ε β) :
    (Except.ok a : Except ε α) >>= f = f a := rfl

theorem except_bind_err (e : ε) (f : α → Except ε β) :
    (Except.error e : Except ε α) >>= f = Except.error e := rfl

theorem parse_node_applications_shape (hostname : String) (apps : AppMap)
    (names : List PyValue) (h : names.all (fun v => v matches .pstr _) = true) :
    (∃ as, parse_node_applications hostname apps names = .ok as) ∨
    (∃ nm, parse_node_applications hostname apps names
      = .error (.configurationError (unrecognisedAppMsg hostname nm))) := by
  induction names with
  | nil => exact Or.inl ⟨[], rfl⟩
  | cons v rest ih =>
    simp only [List.all_cons, Bool.and_eq_true] at h
    obtain ⟨hv, hrest⟩ := h
    match v with
    | .pstr s =>
      cases hl : lookupApp apps s with
      | none => exact Or.inr ⟨s, by simp [parse_node_applications, hl]⟩
      | some app =>
        cases ih hrest with
        | inl hok =>
          obtain ⟨as, hok⟩ := hok
          exact Or.inl ⟨app :: as, by
            simp [parse_node_applications, hl, hok, except_bind_ok]⟩
        | inr herr =>
          obtain ⟨nm, herr⟩ := herr
          exact Or.inr ⟨nm, by
            simp [parse_node_applications, hl, herr, except_bind_ok, except_bind_err]⟩
    | .pnone => simp at hv
    | .pbool b => simp at hv
    | .pint n => simp at hv
    | .plist xs => simp at hv
    | .pdict xs => simp at hv

theorem parse_node_applications_bad (hostname : String) (apps : AppMap)
    (names : List PyValue) (h : names.all (fun v => v matches .pstr _) = true)
    (hbad : names.any (fun v => match v with
      | .pstr s => (lookupApp apps s).isNone
      | _ => false) = true) :
    ∃ nm, parse_node_applications hostname apps names
      = .error (.configurationError (unrecognisedAppMsg hostname nm)) := by
  induction names with
  | nil => simp at hbad
  | cons v rest ih =>
    simp only [List.all_cons, Bool.and_eq_true] at h
    obtain ⟨hv, hrest⟩ := h
    match v with
    | .pstr s =>
      simp only [List.any_cons, Bool.or_eq_true] at hbad
      cases hl : lookupApp apps s with
      | none => exact ⟨s, by simp [parse_node_applications, hl]⟩
      | some app =>
        have hbadrest : rest.any (fun v => match v with
            | .pstr s => (lookupApp apps s).isNone
            | _ => false) = true := by
          cases hbad with
          | inl hh => rw [hl] at hh; simp at hh
          | inr hh => exact hh
        obtain ⟨nm, herr⟩ := ih hrest hbadrest
        exact ⟨nm, by simp [parse_node_applications, hl, herr, except_bind_ok, except_bind_err]⟩
    | .pnone => simp at hv
    | .pbool b => simp at hv
    | .pint n => simp at hv
    | .plist xs => simp at hv
    | .pdict xs => simp at hv

theorem parse_nodes_shape (apps : AppMap) (nodesd : List (String × PyValue))
    (hwt : nodesWellTyped nodesd = true) :
    (∃ ns, parse_nodes apps nodesd = .ok ns) ∨
    (∃ hn nm, parse_nodes apps nodesd
      = .error (.configurationError (unrecognisedAppMsg hn nm))) := by
  induction nodesd with
  | nil => exact Or.inl ⟨[], rfl⟩
  | cons p rest ih =>
    obtain ⟨hostname, v⟩ := p
    simp only [nodesWellTyped, List.all_cons, Bool.and_eq_true] at hwt
    obtain ⟨hv, hrest⟩ := hwt
    match v with
    | .plist names =>
      dsimp only at hv
      cases parse_node_applications_shape hostname apps names hv with
      | inl hok =>
        obtain ⟨as, hok⟩ := hok
        cases ih hrest with
        | inl hok2 =>
          obtain ⟨ns, hok2⟩ := hok2
          exact Or.inl ⟨⟨hostname, as⟩ :: ns, by
            simp [parse_nodes, hok, hok2, except_bind_ok]⟩
        | inr herr =>
          obtain ⟨hn, nm, herr⟩ := herr
          exact Or.inr ⟨hn, nm, by
            simp [parse_nodes, hok, herr, except_bind_ok, except_bind_err]⟩
      | inr herr =>
        obtain ⟨nm, herr⟩ := herr
        exact Or.inr ⟨hostname, nm, by simp [parse_nodes, herr, except_bind_ok, except_bind_err]⟩
    | .pnone => simp at hv
    | .pbool b => simp at hv
    | .pint n => simp at hv
    | .pstr s => simp at hv
    | .pdict xs => simp at hv

theorem parse_nodes_bad (apps : AppMap) (nodesd : List (String × PyValue))
    (hwt : nodesWellTyped nodesd = true)
    (hbad : hasUnresolvedName apps nodesd = true) :
    ∃ hn nm, parse_nodes apps nodesd
      = .error (.configurationError (unrecognisedAppMsg hn nm)) := by
  induction nodesd with
  | nil => simp [hasUnresolvedName] at hbad
  | cons p rest ih =>
    obtain ⟨hostname, v⟩ := p
    simp only [nodesWellTyped, List.all_cons, Bool.and_eq_true] at hwt
    obtain ⟨hv, hrest⟩ := hwt
    simp only [hasUnresolvedName, List.any_cons, Bool.or_eq_true] at hbad
    match v with
    | .plist names =>
      dsimp only at hv
      cases hbad with
      | inl hh =>
        obtain ⟨nm, herr⟩ := parse_node_applications_bad hostname apps names hv hh
        exact ⟨hostname, nm, by simp [parse_nodes, herr, except_bind_ok, except_bind_err]⟩
      | inr hh =>
        have hbadrest : hasUnresolvedName apps rest = true := hh
        cases parse_node_applications_shape hostname apps names hv with
        | inl hok =>
          obtain ⟨as, hok⟩ := hok
          obtain ⟨hn, nm, herr⟩ := ih hrest hbadrest
          exact ⟨hn, nm, by simp [parse_nodes, hok, herr, except_bind_ok, except_bind_err]⟩
        | inr herr =>
          obtain ⟨nm, herr⟩ := herr
          exact ⟨hostname, nm, by simp [parse_nodes, herr, except_bind_ok, except_bind_err]⟩
    | .pnone => simp at hv
    | .pbool b => simp at hv
    | .pint n => simp at hv
    | .pstr s => simp at hv
    | .pdict xs => simp at hv

theorem deployment_fromString_toString (d : Deployment) :
    DeploymentArgument.fromString (DeploymentArgument.toString d) = .ok d := by
  have h := decDeployment_enc d []
  rw [List.append_nil] at h
  simp [DeploymentArgument.fromString, DeploymentArgument.toString,
    deserialize_deployment, serialize_deployment, h]

theorem nodeState_fromString_toString (n : NodeState) :
    NodeStateArgument.fromString (NodeStateArgument.toString n) = .ok n := by
  have h := decNode_enc n []
  rw [List.append_nil] at h
  simp [NodeStateArgument.fromString, NodeStateArgument.toString, h]

/-! ## Claim theorems -/

/-- C1: deserializing the serialization of any Deployment/Node/Application
object graph yields a structurally equal object — for the `NodeState` wire
argument (`NodeStateArgument.fromString` after `NodeStateArgument.toString`)
and for the `Deployment` wire argument (`DeploymentArgument.fromString`
after `DeploymentArgument.toString`). -/
theorem serialization_round_trip :
    (∀ d : Deployment,
      DeploymentArgument.fromString (DeploymentArgument.toString d) = .ok d) ∧
    (∀ n : NodeState,
      NodeStateArgument.fromString (NodeStateArgument.toString n) = .ok n) :=
  ⟨deployment_fromString_toString, nodeState_fromString_toString⟩

/-- C2: the `NodeStateCommand` responder invokes the aggregator's
`update_node_state(hostname, node_state)` and returns the empty
acknowledgment; two successive updates for the same hostname leave
exactly the second state stored there, and every other hostname's entry
is unchanged. -/
theorem node_state_update_frame (m : ClusterStateMap) (h k : String)
    (s1 s2 : NodeState) (hk : k ≠ h) :
    (node_changed m h s1).2 = [] ∧
    (node_changed m h s1).1 = update_node_state m h s1 ∧
    (node_changed (node_changed m h s1).1 h s2).1 h = some s2 ∧
    (node_changed (node_changed m h s1).1 h s2).1 k = m k := by
  refine ⟨rfl, rfl, ?_, ?_⟩
  · simp [node_changed, update_node_state]
  · simp [node_changed, update_node_state, hk]

theorem node_state_update_frame_witness :
    ("host2" : String) ≠ "host1" ∧
    ((node_changed (fun _ => Option.none) "host1" ⟨"host1", []⟩).2 = [] ∧
     (node_changed (fun _ => Option.none) "host1" ⟨"host1", []⟩).1
        = update_node_state (fun _ => Option.none) "host1" ⟨"host1", []⟩ ∧
     (node_changed (node_changed (fun _ => Option.none) "host1" ⟨"host1", []⟩).1
        "host1" ⟨"host1", [⟨"web", ⟨"nginx", "latest"⟩, Option.none, [], [], Option.none⟩]⟩).1
        "host1"
        = some ⟨"host1", [⟨"web", ⟨"nginx", "latest"⟩, Option.none, [], [], Option.none⟩]⟩ ∧
     (node_changed (node_changed (fun _ => Option.none) "host1" ⟨"host1", []⟩).1
        "host1" ⟨"host1", [⟨"web", ⟨"nginx", "latest"⟩, Option.none, [], [], Option.none⟩]⟩).1
        "host2"
        = (fun _ => Option.none : ClusterStateMap) "host2") :=
  ⟨by decide, node_state_update_frame _ _ _ _ _ (by decide)⟩

/-- C5: a payload that is not a valid serialization of a domain object
fails deserialization with a `DeserializationError`, for both wire
arguments; the `Except` result carries no partial value. -/
theorem deserialization_fails_on_invalid :
    (∀ b : Bytes, (∀ d : Deployment, DeploymentArgument.toString d ≠ b) →
      DeploymentArgument.fromString b = .error .malformed) ∧
    (∀ b : Bytes, (∀ n : NodeState, NodeStateArgument.toString n ≠ b) →
      NodeStateArgument.fromString b = .error .malformed) := by
  constructor
  · intro b hb
    show deserialize_deployment b = .error .malformed
    unfold deserialize_deployment
    cases hx : decDeployment b with
    | error e => cases e; rfl
    | ok pr =>
      obtain ⟨d, rest⟩ := pr
      match rest with
      | [] =>
        exfalso
        apply hb d
        have hc := decDeployment_canon b d [] hx
        rw [List.append_nil] at hc
        exact hc.symm
      | t :: ts => rfl
  · intro b hb
    unfold NodeStateArgument.fromString
    cases hx : decNode b with
    | error e => cases e; rfl
    | ok pr =>
      obtain ⟨n, rest⟩ := pr
      match rest with
      | [] =>
        exfalso
        apply hb n
        have hc := decNode_canon b n [] hx
        rw [List.append_nil] at hc
        exact hc.symm
      | t :: ts => rfl

theorem deserialization_fails_on_invalid_witness :
    ((∀ d : Deployment, DeploymentArgument.toString d ≠ ([Tok.ti 0] : Bytes)) ∧
      DeploymentArgument.fromString [Tok.ti 0] = .error .malformed) ∧
    ((∀ n : NodeState, NodeStateArgument.toString n ≠ ([Tok.ti 0] : Bytes)) ∧
      NodeStateArgument.fromString [Tok.ti 0] = .error .malformed) := by
  have h1 : ∀ d : Deployment, DeploymentArgument.toString d ≠ ([Tok.ti 0] : Bytes) := by
    intro d hd
    simp [DeploymentArgument.toString, serialize_deployment, encDeployment,
      encList, encNat] at hd
  have h2 : ∀ n : NodeState, NodeStateArgument.toString n ≠ ([Tok.ti 0] : Bytes) := by
    intro n hn
    simp [NodeStateArgument.toString, encNode, encStr] at hn
  exact ⟨⟨h1, deserialization_fails_on_invalid.1 [Tok.ti 0] h1⟩,
    ⟨h2, deserialization_fails_on_invalid.2 [Tok.ti 0] h2⟩⟩

/-- C6: the agent-side responder for `ClusterStatusCommand` passes exactly
the received configuration and state, unmodified, to the agent's
`cluster_updated` entry point and returns the empty acknowledgment. -/
theorem cluster_status_forwarded_unchanged (configuration state : Deployment) :
    handleClusterStatusBox (DeploymentArgument.toString configuration)
      (DeploymentArgument.toString state)
      = .ok (AgentCall.clusterUpdated configuration state, ([] : AmpResponse)) := by
  rw [handleClusterStatusBox, deployment_fromString_toString,
    deployment_fromString_toString]
  rfl

theorem agentTrace_append (a b : List TransportEvent) :
    agentTrace (a ++ b) = agentTrace a ++ agentTrace b := by
  induction a with
  | nil => rfl
  | cons e rest ih => simp [agentTrace, ih]

theorem agentTrace_boxes (boxes : List TransportEvent)
    (hb : ∀ e ∈ boxes, isClusterStatusBox e = true) :
    ∀ d ∈ agentTrace boxes,
      ∃ configuration state, d = AgentCall.clusterUpdated configuration state := by
  induction boxes with
  | nil => simp [agentTrace]
  | cons e rest ih =>
    have he := hb e (List.mem_cons_self e rest)
    have hrest : ∀ e ∈ rest, isClusterStatusBox e = true :=
      fun x hx => hb x (List.mem_cons_of_mem e hx)
    match e with
    | .clusterStatusBox c s =>
      intro d hd
      rw [show agentTrace (TransportEvent.clusterStatusBox c s :: rest)
          = AgentCall.clusterUpdated c s :: agentTrace rest from rfl] at hd
      cases List.mem_cons.mp hd with
      | inl hh => exact ⟨c, s, hh⟩
      | inr hh => exact ih hrest d hh
    | .startReceivingBoxes => simp [isClusterStatusBox] at he
    | .stopReceivingBoxes r => simp [isClusterStatusBox] at he

/-- C3: over a single completed connection, `connected` fires first and
before every `cluster_updated` delivery, `connected` and `disconnected`
each fire exactly once in that order, and nothing is delivered after
`disconnected`. -/
theorem agent_connection_lifecycle (evts : List TransportEvent)
    (hconn : CompletedConnection evts) :
    ∃ deliveries,
      agentTrace evts
        = AgentCall.connected :: (deliveries ++ [AgentCall.disconnected]) ∧
      (∀ d ∈ deliveries, ∃ configuration state,
        d = AgentCall.clusterUpdated configuration state) ∧
      (agentTrace evts).countP (· matches AgentCall.connected) = 1 ∧
      (agentTrace evts).countP (· matches AgentCall.disconnected) = 1 := by
  obtain ⟨boxes, reason, hb, rfl⟩ := hconn
  have htrace : agentTrace (TransportEvent.startReceivingBoxes :: boxes
        ++ [TransportEvent.stopReceivingBoxes reason])
      = AgentCall.connected :: (agentTrace boxes ++ [AgentCall.disconnected]) := by
    rw [show (TransportEvent.startReceivingBoxes :: boxes
        ++ [TransportEvent.stopReceivingBoxes reason])
      = TransportEvent.startReceivingBoxes :: (boxes
        ++ [TransportEvent.stopReceivingBoxes reason]) from rfl]
    rw [show agentTrace (TransportEvent.startReceivingBoxes :: (boxes
        ++ [TransportEvent.stopReceivingBoxes reason]))
      = AgentCall.connected :: agentTrace (boxes
        ++ [TransportEvent.stopReceivingBoxes reason]) from rfl]
    rw [agentTrace_append]
    rfl
  have hdel := agentTrace_boxes boxes hb
  have hzero1 : (agentTrace boxes).countP (· matches AgentCall.connected) = 0 := by
    rw [List.countP_eq_zero]
    intro d hd
    obtain ⟨c, s, rfl⟩ := hdel d hd
    simp
  have hzero2 : (agentTrace boxes).countP (· matches AgentCall.disconnected) = 0 := by
    rw [List.countP_eq_zero]
    intro d hd
    obtain ⟨c, s, rfl⟩ := hdel d hd
    simp
  refine ⟨agentTrace boxes, htrace, hdel, ?_, ?_⟩
  · rw [htrace]
    simp [List.countP_cons, List.countP_append, hzero1]
  · rw [htrace]
    simp [List.countP_cons, List.countP_append, hzero2]

theorem agent_connection_lifecycle_witness :
    CompletedConnection [TransportEvent.startReceivingBoxes,
      TransportEvent.clusterStatusBox ⟨[]⟩ ⟨[]⟩,
      TransportEvent.stopReceivingBoxes "connection lost"] ∧
    ∃ deliveries,
      agentTrace [TransportEvent.startReceivingBoxes,
          TransportEvent.clusterStatusBox ⟨[]⟩ ⟨[]⟩,
          TransportEvent.stopReceivingBoxes "connection lost"]
        = AgentCall.connected :: (deliveries ++ [AgentCall.disconnected]) ∧
      (∀ d ∈ deliveries, ∃ configuration state,
        d = AgentCall.clusterUpdated configuration state) ∧
      (agentTrace [TransportEvent.startReceivingBoxes,
          TransportEvent.clusterStatusBox ⟨[]⟩ ⟨[]⟩,
          TransportEvent.stopReceivingBoxes "connection lost"]).countP
        (· matches AgentCall.connected) = 1 ∧
      (agentTrace [TransportEvent.startReceivingBoxes,
          TransportEvent.clusterStatusBox ⟨[]⟩ ⟨[]⟩,
          TransportEvent.stopReceivingBoxes "connection lost"]).countP
        (· matches AgentCall.disconnected) = 1 := by
  have hc : CompletedConnection [TransportEvent.startReceivingBoxes,
      TransportEvent.clusterStatusBox ⟨[]⟩ ⟨[]⟩,
      TransportEvent.stopReceivingBoxes "connection lost"] := by
    refine ⟨[TransportEvent.clusterStatusBox ⟨[]⟩ ⟨[]⟩], "connection lost", ?_, rfl⟩
    intro e he
    rw [List.mem_singleton] at he
    subst he
    rfl
  exact ⟨hc, agent_connection_lifecycle _ hc⟩

/-- C4 counterexample: a fig-format application configuration (here
`{web: {image: nginx}}`) has no `version` key, yet
`model_from_configuration` accepts it and produces a `Deployment` with no
`ConfigurationError` at all. -/
theorem fig_without_version_accepted :
    hasKey [("web", PyValue.pdict [("image", PyValue.pstr "nginx")])] "version" = false ∧
    (model_from_configuration
        (.pdict [("web", .pdict [("image", .pstr "nginx")])])
        (.pdict [("version", .pint 1),
          ("nodes", .pdict [("host1", .plist [.pstr "web"])])])).1
      = .ok ⟨[⟨"host1",
          [⟨"web", ⟨"nginx", "latest"⟩, Option.none, [], [], .raw .pnone⟩]⟩]⟩ :=
  ⟨rfl, rfl⟩

/-- C4 (amended): an application configuration that is not detected as
fig-format and has an `applications` key but no `version` key is rejected
with the `ConfigurationError` "Missing 'version' key.", and likewise a
deployment configuration with a `nodes` key but no `version` key;
(fig-format application configurations are accepted without `version`,
and a configuration missing `applications`/`nodes` fails on that key
first). -/
theorem missing_version_rejected
    (appv : PyValue) (d : PyDict) (apps : AppMap) (dep : PyDict)
    (hfig : is_fig_configuration appv = .ok (false, d))
    (happs : hasKey d "applications" = true)
    (hver : hasKey d "version" = false)
    (hnodes : hasKey dep "nodes" = true)
    (hdver : hasKey dep "version" = false) :
    ((applications_from_configuration false appv).1
        = .error (.configurationError
          "Application configuration has an error. Missing 'version' key.") ∧
      Mentions "Application configuration has an error. Missing 'version' key."
        "Missing 'version' key.") ∧
    (deployment_from_configuration (.pdict dep) apps
        = .error (.configurationError
          "Deployment configuration has an error. Missing 'version' key.") ∧
      Mentions "Deployment configuration has an error. Missing 'version' key."
        "Missing 'version' key.") := by
  refine ⟨⟨?_, by decide⟩, ?_, by decide⟩
  · simp [applications_from_configuration, hfig,
      applications_from_flocker_configuration, happs, hver]
  · simp [deployment_from_configuration, hnodes, hdver]

theorem missing_version_rejected_witness :
    (is_fig_configuration (.pdict [("applications", .pdict [])])
        = .ok (false, [("applications", PyValue.pdict [])]) ∧
      hasKey [("applications", PyValue.pdict [])] "applications" = true ∧
      hasKey [("applications", PyValue.pdict [])] "version" = false ∧
      hasKey [("nodes", PyValue.pdict [])] "nodes" = true ∧
      hasKey [("nodes", PyValue.pdict [])] "version" = false) ∧
    ((applications_from_configuration false (.pdict [("applications", .pdict [])])).1
        = .error (.configurationError
          "Application configuration has an error. Missing 'version' key.") ∧
      Mentions "Application configuration has an error. Missing 'version' key."
        "Missing 'version' key.") ∧
    (deployment_from_configuration (.pdict [("nodes", .pdict [])]) []
        = .error (.configurationError
          "Deployment configuration has an error. Missing 'version' key.") ∧
      Mentions "Deployment configuration has an error. Missing 'version' key."
        "Missing 'version' key.") :=
  ⟨⟨rfl, rfl, rfl, rfl, rfl⟩,
    missing_version_rejected _ _ [] _ rfl rfl rfl rfl rfl⟩

/-- C7 counterexample: a deployment configuration whose node list
references the unknown application name "u" but which lacks the `version`
key fails with "Missing 'version' key." — a `ConfigurationError` that
does not mention "Unrecognised application name". -/
theorem unrecognised_name_masked_by_missing_version :
    deployment_from_configuration
        (.pdict [("nodes", .pdict [("h1", .plist [.pstr "u"])])]) []
      = .error (.configurationError
        "Deployment configuration has an error. Missing 'version' key.") ∧
    ¬ Mentions "Deployment configuration has an error. Missing 'version' key."
      "Unrecognised application name" :=
  ⟨rfl, by decide⟩

/-- C7 (amended): a deployment configuration that passes the `nodes` and
`version` checks, whose node values are lists of strings, and which
references an application name absent from the parsed applications map,
fails with a `ConfigurationError` mentioning "Unrecognised application
name", and no node set is returned. -/
theorem unrecognised_application_rejected
    (dep : PyDict) (nodesd : List (String × PyValue)) (apps : AppMap)
    (hn : lookupD dep "nodes" = some (.pdict nodesd))
    (hv : hasKey dep "version" = true)
    (hv1 : pyEqOne (getD dep "version") = true)
    (hwt : nodesWellTyped nodesd = true)
    (hbad : hasUnresolvedName apps nodesd = true) :
    ∃ hostname name,
      deployment_from_configuration (.pdict dep) apps
        = .error (.configurationError (unrecognisedAppMsg hostname name)) ∧
      Mentions (unrecognisedAppMsg hostname name)
        "Unrecognised application name" := by
  obtain ⟨hn', nm, herr⟩ := parse_nodes_bad apps nodesd hwt hbad
  refine ⟨hn', nm, ?_, ?_⟩
  · have hk : hasKey dep "nodes" = true := by simp [hasKey, hn]
    have hg : getD dep "nodes" = .pdict nodesd := by simp [getD, hn]
    simp [deployment_from_configuration, hk, hv, hv1, hg, herr]
  · unfold Mentions
    have hmsg : (unrecognisedAppMsg hn' nm).data
        = ("Node " : String).data ++ (hn'.data
          ++ ((" has a config error. " : String).data
            ++ (("Unrecognised application name" : String).data
              ++ ((": " : String).data ++ (nm.data ++ ("." : String).data))))) := by
      simp [unrecognisedAppMsg, String.data_append]
    rw [hmsg]
    apply occursIn_append_left
    apply occursIn_append_left
    apply occursIn_append_left
    exact occursIn_self_append _ _

theorem unrecognised_application_rejected_witness :
    (lookupD [("nodes", PyValue.pdict [("h1", PyValue.plist [PyValue.pstr "u"])]),
        ("version", PyValue.pint 1)] "nodes"
        = some (.pdict [("h1", .plist [.pstr "u"])]) ∧
      hasKey [("nodes", PyValue.pdict [("h1", PyValue.plist [PyValue.pstr "u"])]),
        ("version", PyValue.pint 1)] "version" = true ∧
      pyEqOne (getD [("nodes", PyValue.pdict [("h1", PyValue.plist [PyValue.pstr "u"])]),
        ("version", PyValue.pint 1)] "version") = true ∧
      nodesWellTyped [("h1", PyValue.plist [PyValue.pstr "u"])] = true ∧
      hasUnresolvedName [] [("h1", PyValue.plist [PyValue.pstr "u"])] = true) ∧
    ∃ hostname name,
      deployment_from_configuration
          (.pdict [("nodes", .pdict [("h1", .plist [.pstr "u"])]),
            ("version", .pint 1)]) []
        = .error (.configurationError (unrecognisedAppMsg hostname name)) ∧
      Mentions (unrecognisedAppMsg hostname name)
        "Unrecognised application name" :=
  ⟨⟨rfl, rfl, rfl, rfl, rfl⟩,
    unrecognised_application_rejected _ _ _ rfl rfl rfl rfl rfl⟩

/-- C8: for the fig-format configuration where application `a` links to
application `b` and `b` declares no ports, parsing raises
`StopIteration` (from taking the first element of `b`'s empty port set)
— an exception that is not a `ConfigurationError`, escaping the
documented error taxonomy. -/
theorem fig_link_empty_ports_stopiteration :
    is_fig_configuration (.pdict
        [("a", .pdict [("image", .pstr "x"), ("links", .plist [.pstr "b"])]),
         ("b", .pdict [("image", .pstr "y")])])
      = .ok (true,
        [("a", PyValue.pdict [("image", PyValue.pstr "x"),
            ("links", PyValue.plist [PyValue.pstr "b"])]),
         ("b", PyValue.pdict [("image", PyValue.pstr "y")])]) ∧
    (applications_from_fig_configuration
        [("a", .pdict [("image", .pstr "x"), ("links", .plist [.pstr "b"])]),
         ("b", .pdict [("image", .pstr "y")])]).1
      = .error .stopIteration ∧
    PyErr.stopIteration.isConfigurationError = false :=
  ⟨rfl, rfl, rfl⟩

/-- C9 counterexample: an application config whose `environment` key maps
to the empty dictionary parses to the empty dictionary itself — not to
`None` as it would if the key were absent. -/
theorem empty_environment_is_not_none :
    (parse_environment_config "app" [("environment", .pdict [])]).1
      = .ok (.raw (.pdict [])) ∧
    EnvValue.raw (PyValue.pdict []) ≠ EnvValue.raw PyValue.pnone :=
  ⟨rfl, by simp⟩

/-- C9 (amended): when `environment` is present but maps to the empty
dictionary, the parsed environment is that empty dictionary passed
through unchanged — falsy, and never an empty `frozenset`, but a
different value from the `None` produced when the key is absent. -/
theorem environment_empty_dict_passthrough (application_name : String) :
    (∀ rest : PyDict,
      parse_environment_config application_name
          (("environment", .pdict []) :: rest)
        = (.ok (.raw (.pdict [])), rest)) ∧
    (∀ config : PyDict, lookupD config "environment" = Option.none →
      parse_environment_config application_name config
        = (.ok (.raw .pnone), config)) := by
  constructor
  · intro rest
    rfl
  · intro config hc
    have hp := popD_absent config "environment" hc
    simp [parse_environment_config, popDdef, hp, truthy]

theorem environment_empty_dict_passthrough_witness :
    (parse_environment_config "mysql" [("environment", .pdict []), ("mem", .pint 1)]
        = (.ok (.raw (.pdict [])), [("mem", .pint 1)])) ∧
    lookupD [("image", PyValue.pstr "x")] "environment" = Option.none ∧
    parse_environment_config "mysql" [("image", .pstr "x")]
      = (.ok (.raw .pnone), [("image", .pstr "x")]) :=
  ⟨(environment_empty_dict_passthrough "mysql").1 [("mem", .pint 1)],
   rfl,
   (environment_empty_dict_passthrough "mysql").2 [("image", .pstr "x")] rfl⟩

/-- C10 counterexample: `model_from_configuration` on the empty
application configuration raises a `ConfigurationError` before consuming
any key, and the input mapping is returned exactly equal to its original
value — so it is not the case that every call (including failing ones)
leaves the input unequal to its original value. -/
theorem early_failure_leaves_input_unchanged :
    (model_from_configuration (.pdict []) (.pdict [])).1
      = .error (.configurationError
        "Application configuration has an error. Missing 'applications' key.") ∧
    (model_from_configuration (.pdict []) (.pdict [])).2 = .pdict [] :=
  ⟨rfl, rfl⟩

/-- C10 (amended): flocker-format application parsing does mutate the
caller's input — it pops the keys it consumes (`image`, `ports`, `links`,
`volume`, `environment`), so a call that reaches application parsing
returns with the application's dict stripped of those keys and the input
no longer equal to its original value; but a call that fails before any
key is consumed (see the counterexample) leaves the input unchanged. -/
theorem flocker_parse_consumes_keys :
    (model_from_configuration
        (.pdict [("version", .pint 1),
          ("applications", .pdict [("web", .pdict
            [("image", .pstr "nginx:latest"),
             ("ports", .plist [.pdict [("internal", .pint 80),
               ("external", .pint 8080)]])])])])
        (.pdict [("version", .pint 1),
          ("nodes", .pdict [("host1", .plist [.pstr "web"])])])).1
      = .ok ⟨[⟨"host1",
          [⟨"web", ⟨"nginx", "latest"⟩, Option.none,
            [⟨.pint 80, .pint 8080⟩], [], .raw .pnone⟩]⟩]⟩ ∧
    (model_from_configuration
        (.pdict [("version", .pint 1),
          ("applications", .pdict [("web", .pdict
            [("image", .pstr "nginx:latest"),
             ("ports", .plist [.pdict [("internal", .pint 80),
               ("external", .pint 8080)]])])])])
        (.pdict [("version", .pint 1),
          ("nodes", .pdict [("host1", .plist [.pstr "web"])])])).2
      = .pdict [("version", .pint 1), ("applications", .pdict [("web", .pdict [])])] ∧
    (PyValue.pdict [("version", .pint 1), ("applications", .pdict [("web", .pdict [])])])
      ≠ .pdict [("version", .pint 1),
          ("applications", .pdict [("web", .pdict
            [("image", .pstr "nginx:latest"),
             ("ports", .plist [.pdict [("internal", .pint 80),
               ("external", .pint 8080)]])])])] :=
  ⟨rfl, rfl, by simp⟩
